import Mathlib

/-!
# Pisanix `VirtualDatabaseReconciler`: a shallow embedding

Embedding of `pisa-controller/pkg/controllers/virtualdatabase.go`.

The reconciler talks to two collaborators that are libraries outside the
repository: the controller-runtime `client.Client` (Get / Create / Update on
the object store) and the RDS client of the golang-sdk (Describe / Create of an
instance).  Both are modelled by a `World`: the contents of the store, and
response oracles indexed by the number of collaborator calls issued so far, so
that any answer (including any failure) can be given to any call.  Every call
is appended to `World.calls`.

Go values: a nil-able pointer is an `Option`, an `error` is an
`Option GoError`, `time.Duration` is a number of nanoseconds, a nil pointer
dereference is the outcome `panicked`.  Strings are sequences of characters;
the two separators searched for in the source are ASCII.
-/

namespace Pisanix

/-! ## Go values -/

/-- An `error` value: the text of `err.Error()` and the verdict of
`apierrors.IsNotFound(err)`. -/
structure GoError where
  msg : String
  notFound : Bool
deriving DecidableEq, Repr

/-- The key `types.NamespacedName`. -/
structure NamespacedName where
  Namespace : String
  Name : String
deriving DecidableEq, Repr

/-- The result `ctrl.Result`; `RequeueAfter` is a `time.Duration` in nanoseconds. -/
structure Result where
  Requeue : Bool := false
  RequeueAfter : Nat := 0
deriving DecidableEq, Repr

/-- The constant `time.Second`, in nanoseconds. -/
def Second : Nat := 1000000000

/-- The constant `ReconcileTime = 30 * time.Second`. -/
def ReconcileTime : Nat := 30 * Second

/-- The conversion `uint32(x)` of a signed integer. -/
def uint32 (x : Int) : Nat := (x % 4294967296).toNat

/-- Search of `sub` at some position of `s`, on character lists. -/
def containsChars (sub : List Char) : List Char → Bool
  | [] => sub.isEmpty
  | c :: cs => sub.isPrefixOf (c :: cs) || containsChars sub cs

/-- The function `strings.Contains(s, substr)`. -/
def strings_Contains (s substr : String) : Bool :=
  containsChars substr.toList s.toList

/-- Splitting of a character list at every occurrence of `sep`. -/
def splitChars (sep : Char) : List Char → List (List Char)
  | [] => [[]]
  | c :: cs =>
    if c = sep then [] :: splitChars sep cs
    else
      match splitChars sep cs with
      | [] => [[c]]
      | h :: t => (c :: h) :: t

/-- The function `strings.Split(s, sep)` for a one-character separator. -/
def strings_Split (s : String) (sep : Char) : List String :=
  (splitChars sep s.toList).map String.mk

/-- The lookup `m[key]` in a `map[string]string`: the empty string when absent. -/
def mapIndex : List (String × String) → String → String
  | [], _ => ""
  | (k, v) :: rest, key => if k = key then v else mapIndex rest key

/-! ## API objects (the fields the reconciler reads or writes) -/

/-- The `v1alpha1.DatabaseMySQL` sub-descriptor of a service. -/
structure DatabaseMySQL where
  DB : String
deriving DecidableEq, Repr

/-- One entry of `VirtualDatabase.Spec.Services`. -/
structure VirtualDatabaseService where
  DatabaseMySQL : Option DatabaseMySQL
deriving DecidableEq, Repr

/-- The `VirtualDatabaseSpec`. -/
structure VirtualDatabaseSpec where
  DatabaseClassName : String
  Services : List VirtualDatabaseService
deriving DecidableEq, Repr

/-- The `v1alpha1.VirtualDatabase` object. -/
structure VirtualDatabase where
  Namespace : String
  Name : String
  Spec : VirtualDatabaseSpec
deriving DecidableEq, Repr

/-- The engine of a class. -/
structure DatabaseClassEngine where
  Name : String
  Version : String
deriving DecidableEq, Repr

/-- The instance of a class. -/
structure DatabaseClassInstance where
  Class : String
deriving DecidableEq, Repr

/-- The storage of a class. -/
structure DatabaseClassStorage where
  AllocatedStorage : Int
deriving DecidableEq, Repr

/-- The `DatabaseClassSpec`. -/
structure DatabaseClassSpec where
  Provisioner : String
  Engine : DatabaseClassEngine
  DefaultMasterUsername : String
  Instance : DatabaseClassInstance
  Storage : DatabaseClassStorage
deriving DecidableEq, Repr

/-- The `v1alpha1.DatabaseClass` object. -/
structure DatabaseClass where
  Annotations : List (String × String)
  Spec : DatabaseClassSpec
deriving DecidableEq, Repr

/-- The `v1alpha1.MySQL` connection record; `Port` is a `uint32`. -/
structure MySQL where
  Host : String
  Port : Nat
  User : String
  Password : String
  DB : String
deriving DecidableEq, Repr

/-- The `v1alpha1.Database` record, holding a pointer to the MySQL record. -/
structure Database where
  MySQL : Option MySQL
deriving DecidableEq, Repr

/-- The `DatabaseEndpointSpec`. -/
structure DatabaseEndpointSpec where
  Database : Database
deriving DecidableEq, Repr

/-- The `v1alpha1.DatabaseEndpoint` object. -/
structure DatabaseEndpoint where
  Namespace : String
  Name : String
  Spec : DatabaseEndpointSpec
deriving DecidableEq, Repr

/-- The endpoint reported by the provider for an instance. -/
structure Endpoint where
  Address : String
  Port : Int
deriving DecidableEq, Repr

/-- The description returned by `Describe`. -/
structure DescInstance where
  Endpoint : Endpoint
deriving DecidableEq, Repr

/-- The parameters set on the RDS instance builder before `Create`. -/
structure CreateInstanceInput where
  Engine : String
  EngineVersion : String
  DBInstanceIdentifier : String
  MasterUsername : String
  MasterUserPassword : String
  DBInstanceClass : String
  AllocatedStorage : Int
  DBName : String
  VpcSecurityGroupIds : List String
  DBSubnetGroup : String
deriving DecidableEq, Repr

/-- Modelled from the spec: the constant `v1alpha1.DatabaseProvisionerAWSRdsInstance`
of the golang-sdk, the provisioner value `AWSRdsInstance`. -/
def DatabaseProvisionerAWSRdsInstance : String := "AWSRdsInstance"

/-- The annotation keys `v1alpha1.AnnotationsSubnetGroupName` and
`v1alpha1.AnnotationsVPCSecurityGroupIds` of the golang-sdk, taken as parameters. -/
structure AnnotationKeys where
  AnnotationsSubnetGroupName : String
  AnnotationsVPCSecurityGroupIds : String
deriving DecidableEq, Repr

/-! ## The collaborators -/

/-- The calls the reconciler issues to its collaborators. -/
inductive Call where
  | getVirtualDatabase (key : NamespacedName)
  | getDatabaseClass (key : NamespacedName)
  | describe (id : String)
  | createInstance (input : CreateInstanceInput)
  | getDatabaseEndpoint (key : NamespacedName)
  | createDatabaseEndpoint (obj : DatabaseEndpoint)
  | updateDatabaseEndpoint (obj : DatabaseEndpoint)
deriving DecidableEq, Repr

/-- The store operations into which a failure can be injected. -/
inductive StoreOp where
  | getVirtualDatabase
  | getDatabaseClass
  | getDatabaseEndpoint
  | createDatabaseEndpoint
  | updateDatabaseEndpoint
deriving DecidableEq, Repr

/-- The state of the collaborators.  The store holds the content of each object
under its key; `storeFault t op` is the failure (if any) of a store call of kind
`op` issued when `t` calls have been made; `describeInstance t id` and
`createInstance t input` are the provider's answers at that moment;
`randomString t` is what `utils.RandomString()` returns. -/
structure World where
  virtualDatabases : NamespacedName → Option VirtualDatabaseSpec
  databaseClasses : NamespacedName → Option DatabaseClass
  databaseEndpoints : NamespacedName → Option DatabaseEndpointSpec
  storeFault : Nat → StoreOp → Option GoError
  describeInstance : Nat → String → Option DescInstance × Option GoError
  createInstance : Nat → CreateInstanceInput → Option GoError
  randomString : Nat → String
  calls : List Call

/-- The number of collaborator calls issued so far. -/
def World.clock (w : World) : Nat := w.calls.length

/-- Appends a call to the log. -/
def World.record (w : World) (c : Call) : World :=
  { w with calls := w.calls ++ [c] }

/-- The error a store returns for an absent object. -/
def errNotFound : GoError := { msg := "not found", notFound := true }

/-- The error a store returns on creating an object that exists. -/
def errAlreadyExists : GoError := { msg := "already exists", notFound := false }

/-- The zero value `&v1alpha1.VirtualDatabase{}`. -/
def VirtualDatabase.zero : VirtualDatabase :=
  { Namespace := "", Name := "", Spec := { DatabaseClassName := "", Services := [] } }

/-- The zero value `&v1alpha1.DatabaseClass{}`. -/
def DatabaseClass.zero : DatabaseClass :=
  { Annotations := [],
    Spec := { Provisioner := "", Engine := { Name := "", Version := "" },
              DefaultMasterUsername := "", Instance := { Class := "" },
              Storage := { AllocatedStorage := 0 } } }

/-- The zero value `&v1alpha1.DatabaseEndpoint{}`. -/
def DatabaseEndpoint.zero : DatabaseEndpoint :=
  { Namespace := "", Name := "", Spec := { Database := { MySQL := none } } }

/-- The call `r.Get(ctx, key, &v1alpha1.VirtualDatabase{})`. -/
def World.GetVirtualDatabase (w : World) (key : NamespacedName) :
    (VirtualDatabase × Option GoError) × World :=
  match w.storeFault w.clock StoreOp.getVirtualDatabase with
  | some e => ((VirtualDatabase.zero, some e), w.record (Call.getVirtualDatabase key))
  | none =>
    match w.virtualDatabases key with
    | none => ((VirtualDatabase.zero, some errNotFound), w.record (Call.getVirtualDatabase key))
    | some spec =>
      (({ Namespace := key.Namespace, Name := key.Name, Spec := spec }, none),
        w.record (Call.getVirtualDatabase key))

/-- The call `r.Get(ctx, key, &v1alpha1.DatabaseClass{})`. -/
def World.GetDatabaseClass (w : World) (key : NamespacedName) :
    (DatabaseClass × Option GoError) × World :=
  match w.storeFault w.clock StoreOp.getDatabaseClass with
  | some e => ((DatabaseClass.zero, some e), w.record (Call.getDatabaseClass key))
  | none =>
    match w.databaseClasses key with
    | none => ((DatabaseClass.zero, some errNotFound), w.record (Call.getDatabaseClass key))
    | some cls => ((cls, none), w.record (Call.getDatabaseClass key))

/-- The call `r.Get(ctx, key, &v1alpha1.DatabaseEndpoint{})`. -/
def World.GetDatabaseEndpoint (w : World) (key : NamespacedName) :
    (DatabaseEndpoint × Option GoError) × World :=
  match w.storeFault w.clock StoreOp.getDatabaseEndpoint with
  | some e => ((DatabaseEndpoint.zero, some e), w.record (Call.getDatabaseEndpoint key))
  | none =>
    match w.databaseEndpoints key with
    | none => ((DatabaseEndpoint.zero, some errNotFound), w.record (Call.getDatabaseEndpoint key))
    | some spec =>
      (({ Namespace := key.Namespace, Name := key.Name, Spec := spec }, none),
        w.record (Call.getDatabaseEndpoint key))

/-- The call `r.Create(ctx, dbep)`: stores the object unless the call fails or
the key is taken. -/
def World.CreateDatabaseEndpoint (w : World) (obj : DatabaseEndpoint) :
    Option GoError × World :=
  match w.storeFault w.clock StoreOp.createDatabaseEndpoint with
  | some e => (some e, w.record (Call.createDatabaseEndpoint obj))
  | none =>
    match w.databaseEndpoints ⟨obj.Namespace, obj.Name⟩ with
    | some _ => (some errAlreadyExists, w.record (Call.createDatabaseEndpoint obj))
    | none =>
      (none,
        { w.record (Call.createDatabaseEndpoint obj) with
          databaseEndpoints := fun k =>
            if k = ⟨obj.Namespace, obj.Name⟩ then some obj.Spec else w.databaseEndpoints k })

/-- The call `r.Update(ctx, dbep)`: replaces the stored object unless the call
fails or the object is absent. -/
def World.UpdateDatabaseEndpoint (w : World) (obj : DatabaseEndpoint) :
    Option GoError × World :=
  match w.storeFault w.clock StoreOp.updateDatabaseEndpoint with
  | some e => (some e, w.record (Call.updateDatabaseEndpoint obj))
  | none =>
    match w.databaseEndpoints ⟨obj.Namespace, obj.Name⟩ with
    | none => (some errNotFound, w.record (Call.updateDatabaseEndpoint obj))
    | some _ =>
      (none,
        { w.record (Call.updateDatabaseEndpoint obj) with
          databaseEndpoints := fun k =>
            if k = ⟨obj.Namespace, obj.Name⟩ then some obj.Spec else w.databaseEndpoints k })

/-- The call `rds...Instance().SetDBInstanceIdentifier(id).Describe(ctx)`. -/
def World.Describe (w : World) (id : String) :
    (Option DescInstance × Option GoError) × World :=
  (w.describeInstance w.clock id, w.record (Call.describe id))

/-- The call `rds...Instance().Set...().Create(ctx)`. -/
def World.CreateInstance (w : World) (input : CreateInstanceInput) :
    Option GoError × World :=
  (w.createInstance w.clock input, w.record (Call.createInstance input))

/-! ## The reconciler -/

/-- How a function ended: it returned `(ctrl.Result, error)`, or it panicked. -/
inductive Outcome where
  | returned (res : Result) (err : Option GoError)
  | panicked
deriving DecidableEq, Repr

/-- What one iteration of the loop over the services does: go on with the next
service, or leave the function. -/
inductive Flow where
  | next (w : World)
  | done (o : Outcome) (w : World)

/-- Lines 108-120: the parameters set on the instance builder before `Create`. -/
def instanceInput (vdb : VirtualDatabase) (cls : DatabaseClass)
    (subnetGroupName vpcSecurityGroupIds randompass : String) (mysql : DatabaseMySQL) :
    CreateInstanceInput :=
  { Engine := cls.Spec.Engine.Name,
    EngineVersion := cls.Spec.Engine.Version,
    DBInstanceIdentifier := vdb.Name,
    MasterUsername := cls.Spec.DefaultMasterUsername,
    MasterUserPassword := randompass,
    DBInstanceClass := cls.Spec.Instance.Class,
    AllocatedStorage := cls.Spec.Storage.AllocatedStorage,
    DBName := mysql.DB,
    VpcSecurityGroupIds := strings_Split vpcSecurityGroupIds ',',
    DBSubnetGroup := subnetGroupName }

/-- Lines 135-151: the DatabaseEndpoint built when none is found. -/
def newDatabaseEndpoint (vdb : VirtualDatabase) (cls : DatabaseClass) (randompass : String)
    (mysql : DatabaseMySQL) : DatabaseEndpoint :=
  { Namespace := vdb.Namespace,
    Name := vdb.Name,
    Spec := { Database := { MySQL := some {
      Host := "",
      Port := 0,
      User := cls.Spec.DefaultMasterUsername,
      Password := randompass,
      DB := mysql.DB } } } }

/-- Lines 159-160: the assignments to `dbep.Spec.Database.MySQL.Host` and `.Port`,
where `m` is the record the pointer `dbep.Spec.Database.MySQL` refers to. -/
def setHostPort (dbep : DatabaseEndpoint) (m : MySQL) (desc : DescInstance) :
    DatabaseEndpoint :=
  { dbep with
    Spec := { Database := { MySQL := some {
      m with
      Host := desc.Endpoint.Address,
      Port := uint32 desc.Endpoint.Port } } } }

/-- Lines 127-165: the synchronisation of the DatabaseEndpoint of one service.  The
source comment on line 127 reads `// Update or Delete`; the block creates the endpoint or
updates it, and issues no delete. -/
def syncDatabaseEndpoint (vdb : VirtualDatabase) (cls : DatabaseClass) (randompass : String)
    (mysql : DatabaseMySQL) (rdsDesc : Option DescInstance) (w : World) : Flow :=
  match w.GetDatabaseEndpoint ⟨vdb.Namespace, vdb.Name⟩ with
  | ((_, some err), w1) =>
    if err.notFound then
      match w1.CreateDatabaseEndpoint (newDatabaseEndpoint vdb cls randompass mysql) with
      | (some err2, w2) => Flow.done (Outcome.returned {} (some err2)) w2
      | (none, w2) => Flow.done (Outcome.returned {} (some err)) w2
    else Flow.done (Outcome.returned {} (some err)) w1
  | ((dbep, none), w1) =>
    match rdsDesc with
    | some desc =>
      match dbep.Spec.Database.MySQL with
      | none => Flow.done Outcome.panicked w1
      | some m =>
        match w1.UpdateDatabaseEndpoint (setHostPort dbep m desc) with
        | (some err, w2) => Flow.done (Outcome.returned { Requeue := true } (some err)) w2
        | (none, w2) => Flow.next w2
    | none => Flow.next w1

/-- Lines 104-166: the body of the loop for one service. -/
def reconcileService (vdb : VirtualDatabase) (cls : DatabaseClass)
    (subnetGroupName vpcSecurityGroupIds randompass : String)
    (svc : VirtualDatabaseService) (w : World) : Flow :=
  match svc.DatabaseMySQL with
  | none => Flow.next w
  | some mysql =>
    match w.Describe vdb.Name with
    | ((rdsDesc, some err), w1) =>
      if strings_Contains err.msg "DBInstanceNotFound" then
        match w1.CreateInstance
            (instanceInput vdb cls subnetGroupName vpcSecurityGroupIds randompass mysql) with
        | (some err2, w2) => Flow.done (Outcome.returned {} (some err2)) w2
        | (none, w2) => syncDatabaseEndpoint vdb cls randompass mysql rdsDesc w2
      else syncDatabaseEndpoint vdb cls randompass mysql rdsDesc w1
    | ((rdsDesc, none), w1) => syncDatabaseEndpoint vdb cls randompass mysql rdsDesc w1

/-- Lines 103-169: the loop `for _, svc := range vdb.Spec.Services` and the final
`return ctrl.Result{}, nil`. -/
def reconcileServices (vdb : VirtualDatabase) (cls : DatabaseClass)
    (subnetGroupName vpcSecurityGroupIds randompass : String) :
    List VirtualDatabaseService → World → Outcome × World
  | [], w => (Outcome.returned {} none, w)
  | svc :: rest, w =>
    match reconcileService vdb cls subnetGroupName vpcSecurityGroupIds randompass svc w with
    | Flow.next w1 =>
      reconcileServices vdb cls subnetGroupName vpcSecurityGroupIds randompass rest w1
    | Flow.done o w1 => (o, w1)

/-- The method `reconcileAWSRds`.  The region, the credentials and the session
built from the process environment select the provider and are part of the
`World`. -/
def reconcileAWSRds (keys : AnnotationKeys) (_req : NamespacedName) (vdb : VirtualDatabase)
    (cls : DatabaseClass) (w : World) : Outcome × World :=
  reconcileServices vdb cls
    (mapIndex cls.Annotations keys.AnnotationsSubnetGroupName)
    (mapIndex cls.Annotations keys.AnnotationsVPCSecurityGroupIds)
    (w.randomString w.clock)
    vdb.Spec.Services w

/-- The method `reconcile`. -/
def reconcile (keys : AnnotationKeys) (req : NamespacedName) (rt : VirtualDatabase)
    (w : World) : Outcome × World :=
  if rt.Spec.DatabaseClassName ≠ "" then
    match w.GetDatabaseClass ⟨rt.Namespace, rt.Spec.DatabaseClassName⟩ with
    | ((_, some err), w1) => (Outcome.returned {} (some err), w1)
    | ((cls, none), w1) =>
      if cls.Spec.Provisioner = DatabaseProvisionerAWSRdsInstance then
        reconcileAWSRds keys req rt cls w1
      else (Outcome.returned { RequeueAfter := ReconcileTime } none, w1)
  else (Outcome.returned { RequeueAfter := ReconcileTime } none, w)

/-- The method `getRuntimeVirtualDatabase`. -/
def getRuntimeVirtualDatabase (w : World) (namespacedName : NamespacedName) :
    (VirtualDatabase × Option GoError) × World :=
  w.GetVirtualDatabase namespacedName

/-- The method `Reconcile`. -/
def Reconcile (keys : AnnotationKeys) (req : NamespacedName) (w : World) : Outcome × World :=
  match getRuntimeVirtualDatabase w req with
  | ((_, some err), w1) =>
    if err.notFound then (Outcome.returned {} none, w1)
    else (Outcome.returned {} (some err), w1)
  | ((rt, none), w1) => reconcile keys req rt w1

/-! ## Observations on a run -/

/-- The call is a `CreateInstance` of the provider. -/
def Call.isCreateInstance : Call → Bool
  | Call.createInstance _ => true
  | _ => false

/-- The call is a `Create` of a DatabaseEndpoint. -/
def Call.isCreateDatabaseEndpoint : Call → Bool
  | Call.createDatabaseEndpoint _ => true
  | _ => false

/-- The call is an `Update` of a DatabaseEndpoint. -/
def Call.isUpdateDatabaseEndpoint : Call → Bool
  | Call.updateDatabaseEndpoint _ => true
  | _ => false

/-- The service declares a MySQL database. -/
def VirtualDatabaseService.hasMySQL (svc : VirtualDatabaseService) : Bool :=
  svc.DatabaseMySQL.isSome

/-- The VirtualDatabase stored under `req` is `vdb`, it names the stored class
`cls`, the provisioner of `cls` is `AWSRdsInstance`, and the two lookups do not
fail: `Reconcile` reaches the cloud convergence. -/
def CloudBacked (w : World) (req : NamespacedName) (vdb : VirtualDatabase)
    (cls : DatabaseClass) : Prop :=
  w.virtualDatabases req = some vdb.Spec ∧
  vdb.Namespace = req.Namespace ∧ vdb.Name = req.Name ∧
  vdb.Spec.DatabaseClassName ≠ "" ∧
  w.databaseClasses ⟨vdb.Namespace, vdb.Spec.DatabaseClassName⟩ = some cls ∧
  cls.Spec.Provisioner = DatabaseProvisionerAWSRdsInstance ∧
  (∀ t, w.storeFault t StoreOp.getVirtualDatabase = none) ∧
  (∀ t, w.storeFault t StoreOp.getDatabaseClass = none)

/-- The stored endpoint has a non-empty host and a non-zero port. -/
def Populated (s : Option DatabaseEndpointSpec) : Prop :=
  ∃ m : MySQL, s = some { Database := { MySQL := some m } } ∧ m.Host ≠ "" ∧ m.Port ≠ 0

/-- The world a loop iteration ends in. -/
def Flow.world : Flow → World
  | Flow.next w => w
  | Flow.done _ w => w

/-- The answers of the collaborators to future calls and the stored
VirtualDatabases and classes are the same in both worlds. -/
structure SameOracles (w w' : World) : Prop where
  virtualDatabases : w'.virtualDatabases = w.virtualDatabases
  databaseClasses : w'.databaseClasses = w.databaseClasses
  storeFault : w'.storeFault = w.storeFault
  describeInstance : w'.describeInstance = w.describeInstance
  createInstance : w'.createInstance = w.createInstance
  randomString : w'.randomString = w.randomString

/-- The number of services that declare a MySQL database. -/
def mysqlCount (svcs : List VirtualDatabaseService) : Nat :=
  svcs.countP VirtualDatabaseService.hasMySQL

/-! ## Concrete inputs -/

/-- Annotation keys of the examples. -/
def exampleKeys : AnnotationKeys :=
  { AnnotationsSubnetGroupName := "subnet-group-name",
    AnnotationsVPCSecurityGroupIds := "vpc-security-group-ids" }

/-- The request of the examples: the VirtualDatabase `ns/app1`. -/
def exampleReq : NamespacedName := { Namespace := "ns", Name := "app1" }

/-- A class with the provisioner `prov`, engine mysql 8.0. -/
def exampleClass (prov : String) : DatabaseClass :=
  { Annotations := [("subnet-group-name", "sg"), ("vpc-security-group-ids", "a,b")],
    Spec := { Provisioner := prov, Engine := { Name := "mysql", Version := "8.0" },
              DefaultMasterUsername := "admin", Instance := { Class := "db.t3.micro" },
              Storage := { AllocatedStorage := 20 } } }

/-- A service declaring the MySQL database `db`. -/
def mysqlService (db : String) : VirtualDatabaseService :=
  { DatabaseMySQL := some { DB := db } }

/-- The VirtualDatabase `ns/app1` of class `cls` with the given services. -/
def exampleVdb (services : List VirtualDatabaseService) : VirtualDatabase :=
  { Namespace := "ns", Name := "app1",
    Spec := { DatabaseClassName := "cls", Services := services } }

/-- A store without failures that holds the VirtualDatabase `ns/app1` with the
given services, the class `ns/cls` with provisioner `prov`, and possibly the
DatabaseEndpoint `ns/app1`; the provider always answers `desc` to `Describe` and
accepts every `CreateInstance`. -/
def exampleWorld (prov : String) (services : List VirtualDatabaseService)
    (ep : Option DatabaseEndpointSpec) (desc : Option DescInstance × Option GoError) : World :=
  { virtualDatabases := fun k =>
      if k = exampleReq then some { DatabaseClassName := "cls", Services := services } else none,
    databaseClasses := fun k =>
      if k = { Namespace := "ns", Name := "cls" } then some (exampleClass prov) else none,
    databaseEndpoints := fun k => if k = exampleReq then ep else none,
    storeFault := fun _ _ => none,
    describeInstance := fun _ _ => desc,
    createInstance := fun _ _ => none,
    randomString := fun _ => "s3cret",
    calls := [] }

/-- An empty store without failures. -/
def emptyWorld : World :=
  { virtualDatabases := fun _ => none,
    databaseClasses := fun _ => none,
    databaseEndpoints := fun _ => none,
    storeFault := fun _ _ => none,
    describeInstance := fun _ _ => (none, none),
    createInstance := fun _ _ => none,
    randomString := fun _ => "s3cret",
    calls := [] }

/-- A store whose lookups of a VirtualDatabase fail with a timeout. -/
def brokenWorld : World :=
  { emptyWorld with
    storeFault := fun _ op =>
      if op = StoreOp.getVirtualDatabase then some { msg := "timeout", notFound := false }
      else none }

/-- The answer of `Describe` for an absent instance. -/
def describeNotFound : Option DescInstance × Option GoError :=
  (none, some { msg := "DBInstanceNotFound: app1", notFound := false })

/-- The answer of `Describe` for an instance with the endpoint `host:port`. -/
def describeLive (host : String) (port : Int) : Option DescInstance × Option GoError :=
  (some { Endpoint := { Address := host, Port := port } }, none)

/-- The content of an endpoint `host:port` for the user `admin`. -/
def exampleEndpoint (host : String) (port : Nat) : DatabaseEndpointSpec :=
  { Database := { MySQL := some {
      Host := host, Port := port, User := "admin", Password := "pw", DB := "a" } } }

/-- A store holding the VirtualDatabase `ns/app1` with no `databaseClassName`. -/
def inertWorld : World :=
  { emptyWorld with
    virtualDatabases := fun k =>
      if k = exampleReq then some { DatabaseClassName := "", Services := [mysqlService "a"] }
      else none }

/-- A store holding the VirtualDatabase `ns/app1` of class `cls`, and no class. -/
def orphanWorld : World :=
  { emptyWorld with
    virtualDatabases := fun k =>
      if k = exampleReq then some { DatabaseClassName := "cls", Services := [mysqlService "a"] }
      else none }

/-- The answer of `Describe` when the provider throttles the request. -/
def describeThrottled : Option DescInstance × Option GoError :=
  (none, some { msg := "Throttling: Rate exceeded", notFound := false })

/-! ## Basic facts on the collaborators -/

@[simp]
theorem record_calls (w : World) (c : Call) : (w.record c).calls = w.calls ++ [c] := rfl

@[simp]
theorem record_clock (w : World) (c : Call) : (w.record c).clock = w.clock + 1 := by
  simp [World.clock]

@[simp]
theorem record_virtualDatabases (w : World) (c : Call) :
    (w.record c).virtualDatabases = w.virtualDatabases := rfl

@[simp]
theorem record_databaseClasses (w : World) (c : Call) :
    (w.record c).databaseClasses = w.databaseClasses := rfl

@[simp]
theorem record_databaseEndpoints (w : World) (c : Call) :
    (w.record c).databaseEndpoints = w.databaseEndpoints := rfl

@[simp]
theorem record_storeFault (w : World) (c : Call) :
    (w.record c).storeFault = w.storeFault := rfl

@[simp]
theorem record_describeInstance (w : World) (c : Call) :
    (w.record c).describeInstance = w.describeInstance := rfl

@[simp]
theorem record_createInstance (w : World) (c : Call) :
    (w.record c).createInstance = w.createInstance := rfl

@[simp]
theorem record_randomString (w : World) (c : Call) :
    (w.record c).randomString = w.randomString := rfl

theorem GetVirtualDatabase_world (w : World) (key : NamespacedName) :
    (w.GetVirtualDatabase key).2 = w.record (Call.getVirtualDatabase key) := by
  unfold World.GetVirtualDatabase
  split
  · rfl
  · split <;> rfl

theorem GetDatabaseClass_world (w : World) (key : NamespacedName) :
    (w.GetDatabaseClass key).2 = w.record (Call.getDatabaseClass key) := by
  unfold World.GetDatabaseClass
  split
  · rfl
  · split <;> rfl

theorem GetDatabaseEndpoint_world (w : World) (key : NamespacedName) :
    (w.GetDatabaseEndpoint key).2 = w.record (Call.getDatabaseEndpoint key) := by
  unfold World.GetDatabaseEndpoint
  split
  · rfl
  · split <;> rfl

theorem GetDatabaseEndpoint_ok (w : World) (key : NamespacedName) (dbep : DatabaseEndpoint)
    (h : (w.GetDatabaseEndpoint key).1 = (dbep, none)) :
    w.storeFault w.clock StoreOp.getDatabaseEndpoint = none ∧
    ∃ spec, w.databaseEndpoints key = some spec ∧
      dbep = { Namespace := key.Namespace, Name := key.Name, Spec := spec } := by
  unfold World.GetDatabaseEndpoint at h
  split at h
  · simp at h
  · rename_i hf
    refine ⟨hf, ?_⟩
    split at h
    · simp [errNotFound] at h
    · rename_i spec hs
      simp only [Prod.mk.injEq, and_true] at h
      exact ⟨spec, hs, h.symm⟩

theorem SameOracles.refl (w : World) : SameOracles w w :=
  { virtualDatabases := rfl, databaseClasses := rfl, storeFault := rfl,
    describeInstance := rfl, createInstance := rfl, randomString := rfl }

theorem SameOracles.trans {a b c : World} (h1 : SameOracles a b) (h2 : SameOracles b c) :
    SameOracles a c :=
  { virtualDatabases := h2.virtualDatabases.trans h1.virtualDatabases,
    databaseClasses := h2.databaseClasses.trans h1.databaseClasses,
    storeFault := h2.storeFault.trans h1.storeFault,
    describeInstance := h2.describeInstance.trans h1.describeInstance,
    createInstance := h2.createInstance.trans h1.createInstance,
    randomString := h2.randomString.trans h1.randomString }

theorem SameOracles.record (w : World) (c : Call) : SameOracles w (w.record c) :=
  { virtualDatabases := rfl, databaseClasses := rfl, storeFault := rfl,
    describeInstance := rfl, createInstance := rfl, randomString := rfl }

theorem CreateDatabaseEndpoint_calls (w : World) (obj : DatabaseEndpoint) :
    (w.CreateDatabaseEndpoint obj).2.calls = w.calls ++ [Call.createDatabaseEndpoint obj] := by
  unfold World.CreateDatabaseEndpoint
  split
  · rfl
  · split <;> rfl

theorem CreateDatabaseEndpoint_sameOracles (w : World) (obj : DatabaseEndpoint) :
    SameOracles w (w.CreateDatabaseEndpoint obj).2 := by
  unfold World.CreateDatabaseEndpoint
  split
  · exact SameOracles.record _ _
  · split
    · exact SameOracles.record _ _
    · exact ⟨rfl, rfl, rfl, rfl, rfl, rfl⟩

theorem CreateDatabaseEndpoint_endpoints (w : World) (obj : DatabaseEndpoint)
    (k : NamespacedName) (h : w.databaseEndpoints k ≠ none) :
    (w.CreateDatabaseEndpoint obj).2.databaseEndpoints k = w.databaseEndpoints k := by
  unfold World.CreateDatabaseEndpoint
  split
  · rfl
  · split
    · rfl
    · rename_i hn
      simp only
      split
      · rename_i hk
        subst hk
        exact absurd hn h
      · rfl

theorem UpdateDatabaseEndpoint_calls (w : World) (obj : DatabaseEndpoint) :
    (w.UpdateDatabaseEndpoint obj).2.calls = w.calls ++ [Call.updateDatabaseEndpoint obj] := by
  unfold World.UpdateDatabaseEndpoint
  split
  · rfl
  · split <;> rfl

theorem UpdateDatabaseEndpoint_sameOracles (w : World) (obj : DatabaseEndpoint) :
    SameOracles w (w.UpdateDatabaseEndpoint obj).2 := by
  unfold World.UpdateDatabaseEndpoint
  split
  · exact SameOracles.record _ _
  · split
    · exact SameOracles.record _ _
    · exact ⟨rfl, rfl, rfl, rfl, rfl, rfl⟩

theorem UpdateDatabaseEndpoint_endpoints (w : World) (obj : DatabaseEndpoint)
    (k : NamespacedName) :
    (w.UpdateDatabaseEndpoint obj).2.databaseEndpoints k = w.databaseEndpoints k ∨
    (k = ⟨obj.Namespace, obj.Name⟩ ∧ w.databaseEndpoints k ≠ none ∧
      (w.UpdateDatabaseEndpoint obj).2.databaseEndpoints k = some obj.Spec) := by
  unfold World.UpdateDatabaseEndpoint
  split
  · exact Or.inl rfl
  · split
    · exact Or.inl rfl
    · rename_i s hs
      simp only
      split
      · rename_i hk
        subst hk
        exact Or.inr ⟨rfl, by simp [hs], rfl⟩
      · exact Or.inl rfl

theorem UpdateDatabaseEndpoint_ok (w : World) (obj : DatabaseEndpoint)
    (s : DatabaseEndpointSpec)
    (hf : w.storeFault w.clock StoreOp.updateDatabaseEndpoint = none)
    (hs : w.databaseEndpoints ⟨obj.Namespace, obj.Name⟩ = some s) :
    (w.UpdateDatabaseEndpoint obj).1 = none ∧
    (w.UpdateDatabaseEndpoint obj).2.databaseEndpoints
      = fun k => if k = ⟨obj.Namespace, obj.Name⟩ then some obj.Spec else w.databaseEndpoints k := by
  unfold World.UpdateDatabaseEndpoint
  simp [hf, hs]

theorem uint32_of_inRange (p : Int) (h0 : 0 ≤ p) (h1 : p < 4294967296) :
    ((uint32 p : Nat) : Int) = p := by
  unfold uint32
  rw [Int.emod_eq_of_lt h0 h1, Int.toNat_of_nonneg h0]

theorem setHostPort_same (ns name : String) (m : MySQL) (desc : DescInstance)
    (hh : m.Host = desc.Endpoint.Address) (hp : m.Port = uint32 desc.Endpoint.Port) :
    setHostPort ⟨ns, name, { Database := { MySQL := some m } }⟩ m desc
      = ⟨ns, name, { Database := { MySQL := some m } }⟩ := by
  cases m
  simp only at hh hp
  subst hh hp
  rfl

theorem Populated.ne_none {s : Option DatabaseEndpointSpec} (h : Populated s) : s ≠ none := by
  obtain ⟨m, hm, _, _⟩ := h
  simp [hm]

/-! ## The shapes of a pass -/

/-- The shapes one synchronisation of the endpoint can take. -/
theorem syncDatabaseEndpoint_cases (vdb : VirtualDatabase) (cls : DatabaseClass) (pw : String)
    (mysql : DatabaseMySQL) (rdsDesc : Option DescInstance) (w : World) :
    (∃ o, syncDatabaseEndpoint vdb cls pw mysql rdsDesc w
        = Flow.done o (w.record (Call.getDatabaseEndpoint ⟨vdb.Namespace, vdb.Name⟩))) ∨
    (∃ o, syncDatabaseEndpoint vdb cls pw mysql rdsDesc w
        = Flow.done o ((w.record (Call.getDatabaseEndpoint ⟨vdb.Namespace, vdb.Name⟩)).CreateDatabaseEndpoint
            (newDatabaseEndpoint vdb cls pw mysql)).2) ∨
    (syncDatabaseEndpoint vdb cls pw mysql rdsDesc w
        = Flow.next (w.record (Call.getDatabaseEndpoint ⟨vdb.Namespace, vdb.Name⟩))) ∨
    (∃ desc m, rdsDesc = some desc ∧
      w.storeFault w.clock StoreOp.getDatabaseEndpoint = none ∧
      w.databaseEndpoints ⟨vdb.Namespace, vdb.Name⟩ = some { Database := { MySQL := some m } } ∧
      ((∃ e, (syncDatabaseEndpoint vdb cls pw mysql rdsDesc w
        = Flow.done (Outcome.returned { Requeue := true } (some e))
            ((w.record (Call.getDatabaseEndpoint ⟨vdb.Namespace, vdb.Name⟩)).UpdateDatabaseEndpoint
              (setHostPort ⟨vdb.Namespace, vdb.Name, { Database := { MySQL := some m } }⟩ m desc)).2) ∧
          ((w.record (Call.getDatabaseEndpoint ⟨vdb.Namespace, vdb.Name⟩)).UpdateDatabaseEndpoint
              (setHostPort ⟨vdb.Namespace, vdb.Name, { Database := { MySQL := some m } }⟩ m desc)).1 = some e) ∨
       (syncDatabaseEndpoint vdb cls pw mysql rdsDesc w
        = Flow.next
            ((w.record (Call.getDatabaseEndpoint ⟨vdb.Namespace, vdb.Name⟩)).UpdateDatabaseEndpoint
              (setHostPort ⟨vdb.Namespace, vdb.Name, { Database := { MySQL := some m } }⟩ m desc)).2 ∧
          ((w.record (Call.getDatabaseEndpoint ⟨vdb.Namespace, vdb.Name⟩)).UpdateDatabaseEndpoint
              (setHostPort ⟨vdb.Namespace, vdb.Name, { Database := { MySQL := some m } }⟩ m desc)).1 = none))) := by
  have hw := GetDatabaseEndpoint_world w ⟨vdb.Namespace, vdb.Name⟩
  have hok := GetDatabaseEndpoint_ok w ⟨vdb.Namespace, vdb.Name⟩
  unfold syncDatabaseEndpoint
  rcases hg : w.GetDatabaseEndpoint ⟨vdb.Namespace, vdb.Name⟩ with ⟨⟨dbep, gerr⟩, wg⟩
  rw [hg] at hw hok
  simp only at hw hok
  subst hw
  cases gerr with
  | some e =>
    simp only
    by_cases hn : e.notFound = true
    · simp only [hn, if_true]
      right; left
      rcases hc : (w.record (Call.getDatabaseEndpoint ⟨vdb.Namespace, vdb.Name⟩)).CreateDatabaseEndpoint
        (newDatabaseEndpoint vdb cls pw mysql) with ⟨r, wc⟩
      cases r with
      | some e2 => exact ⟨_, rfl⟩
      | none => exact ⟨_, rfl⟩
    · simp only [hn]
      left
      exact ⟨_, rfl⟩
  | none =>
    obtain ⟨hf, spec, hs, hd⟩ := hok dbep rfl
    subst hd
    simp only
    cases rdsDesc with
    | none => right; right; left; rfl
    | some desc =>
      simp only
      obtain ⟨⟨m⟩⟩ := spec
      cases m with
      | none => left; exact ⟨_, rfl⟩
      | some m =>
        simp only
        right; right; right
        refine ⟨desc, m, rfl, hf, hs, ?_⟩
        rcases hu : (w.record (Call.getDatabaseEndpoint ⟨vdb.Namespace, vdb.Name⟩)).UpdateDatabaseEndpoint
          (setHostPort ⟨vdb.Namespace, vdb.Name, { Database := { MySQL := some m } }⟩ m desc)
          with ⟨r, wu⟩
        cases r with
        | some e => left; exact ⟨e, rfl, rfl⟩
        | none => right; exact ⟨rfl, rfl⟩

/-- The shapes one iteration of the loop can take. -/
theorem reconcileService_cases (vdb : VirtualDatabase) (cls : DatabaseClass)
    (sg vpc pw : String) (svc : VirtualDatabaseService) (w : World) :
    (svc.DatabaseMySQL = none ∧ reconcileService vdb cls sg vpc pw svc w = Flow.next w) ∨
    (∃ mysql, svc.DatabaseMySQL = some mysql ∧
      ((∃ e, reconcileService vdb cls sg vpc pw svc w
          = Flow.done (Outcome.returned {} (some e))
              ((w.record (Call.describe vdb.Name)).record
                (Call.createInstance (instanceInput vdb cls sg vpc pw mysql)))) ∨
       (reconcileService vdb cls sg vpc pw svc w
          = syncDatabaseEndpoint vdb cls pw mysql (w.describeInstance w.clock vdb.Name).1
              ((w.record (Call.describe vdb.Name)).record
                (Call.createInstance (instanceInput vdb cls sg vpc pw mysql)))) ∨
       (reconcileService vdb cls sg vpc pw svc w
          = syncDatabaseEndpoint vdb cls pw mysql (w.describeInstance w.clock vdb.Name).1
              (w.record (Call.describe vdb.Name))))) := by
  unfold reconcileService
  cases hm : svc.DatabaseMySQL with
  | none => left; exact ⟨rfl, rfl⟩
  | some mysql =>
    right
    refine ⟨mysql, rfl, ?_⟩
    simp only [World.Describe]
    rcases hd : w.describeInstance w.clock vdb.Name with ⟨rdsDesc, err⟩
    cases err with
    | none => right; right; rfl
    | some e =>
      simp only
      by_cases hc : strings_Contains e.msg "DBInstanceNotFound" = true
      · simp only [hc, if_true, World.CreateInstance]
        cases hr : (w.record (Call.describe vdb.Name)).createInstance
            (w.record (Call.describe vdb.Name)).clock (instanceInput vdb cls sg vpc pw mysql) with
        | none => right; left; rfl
        | some e2 => left; exact ⟨e2, rfl⟩
      · simp only [hc]
        right; right; rfl

/-- The worlds `Reconcile` can end in. -/
theorem Reconcile_cases (keys : AnnotationKeys) (req : NamespacedName) (w : World) :
    (Reconcile keys req w).2 = w.record (Call.getVirtualDatabase req) ∨
    (∃ key, (Reconcile keys req w).2
      = (w.record (Call.getVirtualDatabase req)).record (Call.getDatabaseClass key)) ∨
    (∃ rt cls sg vpc pw key, Reconcile keys req w
      = reconcileServices rt cls sg vpc pw rt.Spec.Services
          ((w.record (Call.getVirtualDatabase req)).record (Call.getDatabaseClass key))) := by
  have hw := GetVirtualDatabase_world w req
  unfold Reconcile getRuntimeVirtualDatabase
  rcases hg : w.GetVirtualDatabase req with ⟨⟨rt, err⟩, w1⟩
  rw [hg] at hw
  simp only at hw
  subst hw
  cases err with
  | some e =>
    left
    simp only
    split <;> rfl
  | none =>
    simp only
    unfold reconcile
    split
    · have hw2 := GetDatabaseClass_world (w.record (Call.getVirtualDatabase req))
        ⟨rt.Namespace, rt.Spec.DatabaseClassName⟩
      rcases hc : (w.record (Call.getVirtualDatabase req)).GetDatabaseClass
        ⟨rt.Namespace, rt.Spec.DatabaseClassName⟩ with ⟨⟨c, cerr⟩, w2⟩
      rw [hc] at hw2
      simp only at hw2
      subst hw2
      cases cerr with
      | some e => right; left; exact ⟨_, rfl⟩
      | none =>
        simp only
        split
        · right; right
          exact ⟨rt, c, _, _, _, _, rfl⟩
        · right; left; exact ⟨_, rfl⟩
    · left; rfl

theorem Reconcile_cloudBacked (keys : AnnotationKeys) (req : NamespacedName) (w : World)
    (vdb : VirtualDatabase) (cls : DatabaseClass) (h : CloudBacked w req vdb cls) :
    Reconcile keys req w
      = reconcileAWSRds keys req vdb cls
          ((w.record (Call.getVirtualDatabase req)).record
            (Call.getDatabaseClass ⟨vdb.Namespace, vdb.Spec.DatabaseClassName⟩)) := by
  obtain ⟨hv, hns, hn, hcn, hc, hp, hf1, hf2⟩ := h
  obtain ⟨ns, n, spec⟩ := vdb
  simp only at hv hns hn hcn hc
  subst hns hn
  simp [Reconcile, getRuntimeVirtualDatabase, World.GetVirtualDatabase, hf1, hv, reconcile, hcn, World.GetDatabaseClass,
    hf2, hc, hp]

theorem exampleWorld_cloudBacked (services : List VirtualDatabaseService)
    (ep : Option DatabaseEndpointSpec) (desc : Option DescInstance × Option GoError) :
    CloudBacked (exampleWorld "AWSRdsInstance" services ep desc) exampleReq
      (exampleVdb services) (exampleClass "AWSRdsInstance") :=
  ⟨rfl, rfl, rfl, show "cls" ≠ "" by decide, rfl, rfl, fun _ => rfl, fun _ => rfl⟩

theorem syncDatabaseEndpoint_sameOracles (vdb : VirtualDatabase) (cls : DatabaseClass)
    (pw : String) (mysql : DatabaseMySQL) (rdsDesc : Option DescInstance) (w : World) :
    SameOracles w (syncDatabaseEndpoint vdb cls pw mysql rdsDesc w).world := by
  rcases syncDatabaseEndpoint_cases vdb cls pw mysql rdsDesc w with
    ⟨o, h⟩ | ⟨o, h⟩ | h | ⟨desc, m, _, _, _, ⟨e, h, _⟩ | ⟨h, _⟩⟩ <;> rw [h] <;>
    simp only [Flow.world]
  · exact SameOracles.record _ _
  · exact (SameOracles.record _ _).trans (CreateDatabaseEndpoint_sameOracles _ _)
  · exact SameOracles.record _ _
  · exact (SameOracles.record _ _).trans (UpdateDatabaseEndpoint_sameOracles _ _)
  · exact (SameOracles.record _ _).trans (UpdateDatabaseEndpoint_sameOracles _ _)

theorem reconcileService_sameOracles (vdb : VirtualDatabase) (cls : DatabaseClass)
    (sg vpc pw : String) (svc : VirtualDatabaseService) (w : World) :
    SameOracles w (reconcileService vdb cls sg vpc pw svc w).world := by
  rcases reconcileService_cases vdb cls sg vpc pw svc w with
    ⟨_, h⟩ | ⟨mysql, _, ⟨e, h⟩ | h | h⟩ <;> rw [h]
  · exact SameOracles.refl _
  · exact (SameOracles.record _ _).trans (SameOracles.record _ _)
  · exact ((SameOracles.record _ _).trans (SameOracles.record _ _)).trans
      (syncDatabaseEndpoint_sameOracles _ _ _ _ _ _)
  · exact (SameOracles.record _ _).trans (syncDatabaseEndpoint_sameOracles _ _ _ _ _ _)

/-! ## The number of mutating calls -/

theorem syncDatabaseEndpoint_counts (vdb : VirtualDatabase) (cls : DatabaseClass)
    (pw : String) (mysql : DatabaseMySQL) (rdsDesc : Option DescInstance) (w : World) :
    (syncDatabaseEndpoint vdb cls pw mysql rdsDesc w).world.calls.countP Call.isCreateInstance
      = w.calls.countP Call.isCreateInstance ∧
    (syncDatabaseEndpoint vdb cls pw mysql rdsDesc w).world.calls.countP Call.isUpdateDatabaseEndpoint
      ≤ w.calls.countP Call.isUpdateDatabaseEndpoint + 1 ∧
    (syncDatabaseEndpoint vdb cls pw mysql rdsDesc w).world.calls.countP Call.isCreateDatabaseEndpoint
      ≤ w.calls.countP Call.isCreateDatabaseEndpoint + 1 ∧
    (∀ w1, syncDatabaseEndpoint vdb cls pw mysql rdsDesc w = Flow.next w1 →
      w1.calls.countP Call.isCreateDatabaseEndpoint
        = w.calls.countP Call.isCreateDatabaseEndpoint) := by
  rcases syncDatabaseEndpoint_cases vdb cls pw mysql rdsDesc w with
    ⟨o, h⟩ | ⟨o, h⟩ | h | ⟨desc, m, _, _, _, ⟨e, h, _⟩ | ⟨h, _⟩⟩ <;> rw [h] <;>
    simp [Flow.world, CreateDatabaseEndpoint_calls, UpdateDatabaseEndpoint_calls,
      List.countP_append, Call.isCreateInstance, Call.isUpdateDatabaseEndpoint,
      Call.isCreateDatabaseEndpoint]

theorem reconcileService_counts (vdb : VirtualDatabase) (cls : DatabaseClass)
    (sg vpc pw : String) (svc : VirtualDatabaseService) (w : World) :
    (reconcileService vdb cls sg vpc pw svc w).world.calls.countP Call.isCreateInstance
      ≤ w.calls.countP Call.isCreateInstance + mysqlCount [svc] ∧
    (reconcileService vdb cls sg vpc pw svc w).world.calls.countP Call.isUpdateDatabaseEndpoint
      ≤ w.calls.countP Call.isUpdateDatabaseEndpoint + mysqlCount [svc] ∧
    (reconcileService vdb cls sg vpc pw svc w).world.calls.countP Call.isCreateDatabaseEndpoint
      ≤ w.calls.countP Call.isCreateDatabaseEndpoint + 1 ∧
    (∀ w1, reconcileService vdb cls sg vpc pw svc w = Flow.next w1 →
      w1.calls.countP Call.isCreateDatabaseEndpoint
        = w.calls.countP Call.isCreateDatabaseEndpoint) := by
  rcases reconcileService_cases vdb cls sg vpc pw svc w with
    ⟨_, h⟩ | ⟨mysql, hm, ⟨e, h⟩ | h | h⟩
  · rw [h]
    simp [Flow.world]
  · rw [h]
    simp [Flow.world, mysqlCount, VirtualDatabaseService.hasMySQL, hm, List.countP_append,
      Call.isCreateInstance, Call.isUpdateDatabaseEndpoint, Call.isCreateDatabaseEndpoint]
  · rw [h]
    have hc := syncDatabaseEndpoint_counts vdb cls pw mysql (w.describeInstance w.clock vdb.Name).1
      ((w.record (Call.describe vdb.Name)).record
        (Call.createInstance (instanceInput vdb cls sg vpc pw mysql)))
    simp only [record_calls, List.countP_append, List.countP_singleton, Call.isCreateInstance,
      Call.isUpdateDatabaseEndpoint, Call.isCreateDatabaseEndpoint] at hc
    simp only [mysqlCount, VirtualDatabaseService.hasMySQL, hm, List.countP_singleton,
      Option.isSome_some]
    simp at hc ⊢
    obtain ⟨h1, h2, h3, h4⟩ := hc
    exact ⟨by omega, h2, h3, h4⟩
  · rw [h]
    have hc := syncDatabaseEndpoint_counts vdb cls pw mysql (w.describeInstance w.clock vdb.Name).1
      (w.record (Call.describe vdb.Name))
    simp only [record_calls, List.countP_append, List.countP_singleton, Call.isCreateInstance,
      Call.isUpdateDatabaseEndpoint, Call.isCreateDatabaseEndpoint] at hc
    simp only [mysqlCount, VirtualDatabaseService.hasMySQL, hm, List.countP_singleton,
      Option.isSome_some]
    simp at hc ⊢
    obtain ⟨h1, h2, h3, h4⟩ := hc
    exact ⟨by omega, h2, h3, h4⟩

theorem reconcileServices_counts (vdb : VirtualDatabase) (cls : DatabaseClass)
    (sg vpc pw : String) (svcs : List VirtualDatabaseService) :
    ∀ w : World,
    (reconcileServices vdb cls sg vpc pw svcs w).2.calls.countP Call.isCreateInstance
      ≤ w.calls.countP Call.isCreateInstance + mysqlCount svcs ∧
    (reconcileServices vdb cls sg vpc pw svcs w).2.calls.countP Call.isUpdateDatabaseEndpoint
      ≤ w.calls.countP Call.isUpdateDatabaseEndpoint + mysqlCount svcs ∧
    (reconcileServices vdb cls sg vpc pw svcs w).2.calls.countP Call.isCreateDatabaseEndpoint
      ≤ w.calls.countP Call.isCreateDatabaseEndpoint + 1 := by
  induction svcs with
  | nil => intro w; simp [reconcileServices]
  | cons svc rest ih =>
    intro w
    have hs := reconcileService_counts vdb cls sg vpc pw svc w
    have hcount : mysqlCount (svc :: rest) = mysqlCount [svc] + mysqlCount rest := by
      simp [mysqlCount, List.countP_cons]
      omega
    unfold reconcileServices
    cases hf : reconcileService vdb cls sg vpc pw svc w with
    | next w1 =>
      rw [hf] at hs
      simp only [Flow.world] at hs
      obtain ⟨h1, h2, _, h4⟩ := hs
      obtain ⟨i1, i2, i3⟩ := ih w1
      have h4 := h4 w1 rfl
      simp only
      refine ⟨by omega, by omega, by omega⟩
    | done o w1 =>
      rw [hf] at hs
      simp only [Flow.world] at hs
      obtain ⟨h1, h2, h3, _⟩ := hs
      simp only
      refine ⟨by omega, by omega, h3⟩

/-! ## The loop on particular answers of the collaborators -/

/-- The synchronisation when the endpoint is present with a MySQL record and
the instance was described. -/
theorem syncDatabaseEndpoint_present (vdb : VirtualDatabase) (cls : DatabaseClass) (pw : String)
    (mysql : DatabaseMySQL) (desc : DescInstance) (w : World) (m : MySQL)
    (hf : w.storeFault w.clock StoreOp.getDatabaseEndpoint = none)
    (hs : w.databaseEndpoints ⟨vdb.Namespace, vdb.Name⟩ = some { Database := { MySQL := some m } }) :
    syncDatabaseEndpoint vdb cls pw mysql (some desc) w
      = match (w.record (Call.getDatabaseEndpoint ⟨vdb.Namespace, vdb.Name⟩)).UpdateDatabaseEndpoint
          (setHostPort ⟨vdb.Namespace, vdb.Name, { Database := { MySQL := some m } }⟩ m desc) with
        | (some err, w2) => Flow.done (Outcome.returned { Requeue := true } (some err)) w2
        | (none, w2) => Flow.next w2 := by
  simp [syncDatabaseEndpoint, World.GetDatabaseEndpoint, hf, hs]

/-- One iteration when `Describe` succeeds. -/
theorem reconcileService_described (vdb : VirtualDatabase) (cls : DatabaseClass)
    (sg vpc pw : String) (mysql : DatabaseMySQL) (rdsDesc : Option DescInstance) (w : World)
    (hd : w.describeInstance w.clock vdb.Name = (rdsDesc, none)) :
    reconcileService vdb cls sg vpc pw { DatabaseMySQL := some mysql } w
      = syncDatabaseEndpoint vdb cls pw mysql rdsDesc (w.record (Call.describe vdb.Name)) := by
  simp [reconcileService, World.Describe, hd]

/-- The loop when the instance is described, the endpoint is present and the
store accepts every lookup and update of an endpoint. -/
theorem reconcileServices_live (vdb : VirtualDatabase) (cls : DatabaseClass)
    (sg vpc pw : String) (desc : DescInstance) (user password db : String)
    (svcs : List VirtualDatabaseService) :
    ∀ (w : World) (x : String) (y : Nat),
    (∀ t, w.describeInstance t vdb.Name = (some desc, none)) →
    (∀ t, w.storeFault t StoreOp.getDatabaseEndpoint = none) →
    (∀ t, w.storeFault t StoreOp.updateDatabaseEndpoint = none) →
    w.databaseEndpoints ⟨vdb.Namespace, vdb.Name⟩
      = some { Database := { MySQL := some {
            Host := x, Port := y, User := user, Password := password, DB := db } } } →
    (reconcileServices vdb cls sg vpc pw svcs w).1 = Outcome.returned {} none ∧
    (reconcileServices vdb cls sg vpc pw svcs w).2.databaseEndpoints ⟨vdb.Namespace, vdb.Name⟩
      = some { Database := { MySQL := some {
            Host := if mysqlCount svcs = 0 then x else desc.Endpoint.Address,
            Port := if mysqlCount svcs = 0 then y else uint32 desc.Endpoint.Port,
            User := user, Password := password, DB := db } } } ∧
    (reconcileServices vdb cls sg vpc pw svcs w).2.calls.countP Call.isCreateInstance
      = w.calls.countP Call.isCreateInstance ∧
    (reconcileServices vdb cls sg vpc pw svcs w).2.calls.countP Call.isCreateDatabaseEndpoint
      = w.calls.countP Call.isCreateDatabaseEndpoint := by
  induction svcs with
  | nil =>
    intro w x y _ _ _ hs
    simp [reconcileServices, mysqlCount, hs]
  | cons svc rest ih =>
    intro w x y hd hg hu hs
    obtain ⟨dm⟩ := svc
    cases dm with
    | none =>
      have := ih w x y hd hg hu hs
      simpa [reconcileServices, reconcileService, mysqlCount, VirtualDatabaseService.hasMySQL]
        using this
    | some mysql =>
      have hso := reconcileService_sameOracles vdb cls sg vpc pw ⟨some mysql⟩ w
      have hstep := reconcileService_described vdb cls sg vpc pw mysql (some desc) w (hd _)
      rw [syncDatabaseEndpoint_present vdb cls pw mysql desc (w.record (Call.describe vdb.Name))
        { Host := x, Port := y, User := user, Password := password, DB := db }
        (hg _) hs] at hstep
      have hok := UpdateDatabaseEndpoint_ok
        ((w.record (Call.describe vdb.Name)).record
          (Call.getDatabaseEndpoint ⟨vdb.Namespace, vdb.Name⟩))
        (setHostPort ⟨vdb.Namespace, vdb.Name, { Database := { MySQL := some {
            Host := x, Port := y, User := user, Password := password, DB := db } } }⟩
          { Host := x, Port := y, User := user, Password := password, DB := db } desc)
        _ (hu _) hs
      have hcalls := UpdateDatabaseEndpoint_calls
        ((w.record (Call.describe vdb.Name)).record
          (Call.getDatabaseEndpoint ⟨vdb.Namespace, vdb.Name⟩))
        (setHostPort ⟨vdb.Namespace, vdb.Name, { Database := { MySQL := some {
            Host := x, Port := y, User := user, Password := password, DB := db } } }⟩
          { Host := x, Port := y, User := user, Password := password, DB := db } desc)
      rcases hupd : ((w.record (Call.describe vdb.Name)).record
          (Call.getDatabaseEndpoint ⟨vdb.Namespace, vdb.Name⟩)).UpdateDatabaseEndpoint
        (setHostPort ⟨vdb.Namespace, vdb.Name, { Database := { MySQL := some {
            Host := x, Port := y, User := user, Password := password, DB := db } } }⟩
          { Host := x, Port := y, User := user, Password := password, DB := db } desc)
        with ⟨r, w2⟩
      rw [hupd] at hstep hok hcalls
      simp only at hok hcalls
      obtain ⟨hr, hep⟩ := hok
      subst hr
      simp only at hstep
      rw [hstep] at hso
      simp only [Flow.world] at hso
      have hs2 : w2.databaseEndpoints ⟨vdb.Namespace, vdb.Name⟩
          = some { Database := { MySQL := some {
              Host := desc.Endpoint.Address, Port := uint32 desc.Endpoint.Port, User := user,
              Password := password, DB := db } } } := by
        rw [hep]
        simp [setHostPort]
      have := ih w2 desc.Endpoint.Address (uint32 desc.Endpoint.Port)
        (by rw [hso.describeInstance]; exact hd) (by rw [hso.storeFault]; exact hg)
        (by rw [hso.storeFault]; exact hu) hs2
      obtain ⟨i1, i2, i3, i4⟩ := this
      have hcount : mysqlCount (⟨some mysql⟩ :: rest) ≠ 0 := by
        simp [mysqlCount, VirtualDatabaseService.hasMySQL]
      unfold reconcileServices
      rw [hstep]
      simp only [hcount, if_false]
      refine ⟨i1, ?_, ?_, ?_⟩
      · rw [i2]
        by_cases hz : mysqlCount rest = 0 <;> simp [hz]
      · rw [i3, hcalls]
        simp [List.countP_append, Call.isCreateInstance]
      · rw [i4, hcalls]
        simp [List.countP_append, Call.isCreateDatabaseEndpoint]

/-- The loop when the instance is described with the coordinates the endpoint
already holds. -/
theorem reconcileServices_in_sync (vdb : VirtualDatabase) (cls : DatabaseClass)
    (sg vpc pw : String) (desc : DescInstance) (m : MySQL)
    (hh : m.Host = desc.Endpoint.Address) (hp : m.Port = uint32 desc.Endpoint.Port)
    (svcs : List VirtualDatabaseService) :
    ∀ w : World,
    (∀ t, w.describeInstance t vdb.Name = (some desc, none)) →
    (∀ t, w.storeFault t StoreOp.getDatabaseEndpoint = none) →
    w.databaseEndpoints ⟨vdb.Namespace, vdb.Name⟩ = some { Database := { MySQL := some m } } →
    (reconcileServices vdb cls sg vpc pw svcs w).2.databaseEndpoints = w.databaseEndpoints ∧
    ∃ cs, (reconcileServices vdb cls sg vpc pw svcs w).2.calls = w.calls ++ cs ∧
      ∀ c ∈ cs, c = Call.describe vdb.Name ∨
        c = Call.getDatabaseEndpoint ⟨vdb.Namespace, vdb.Name⟩ ∨
        c = Call.updateDatabaseEndpoint
          ⟨vdb.Namespace, vdb.Name, { Database := { MySQL := some m } }⟩ := by
  induction svcs with
  | nil =>
    intro w _ _ _
    exact ⟨rfl, [], by simp [reconcileServices], by simp⟩
  | cons svc rest ih =>
    intro w hd hg hs
    obtain ⟨dm⟩ := svc
    cases dm with
    | none =>
      have := ih w hd hg hs
      simpa [reconcileServices, reconcileService] using this
    | some mysql =>
      have hso := reconcileService_sameOracles vdb cls sg vpc pw ⟨some mysql⟩ w
      have hstep := reconcileService_described vdb cls sg vpc pw mysql (some desc) w (hd _)
      rw [syncDatabaseEndpoint_present vdb cls pw mysql desc (w.record (Call.describe vdb.Name))
        m (hg _) hs, setHostPort_same _ _ m desc hh hp] at hstep
      have hcalls := UpdateDatabaseEndpoint_calls
        ((w.record (Call.describe vdb.Name)).record
          (Call.getDatabaseEndpoint ⟨vdb.Namespace, vdb.Name⟩))
        ⟨vdb.Namespace, vdb.Name, { Database := { MySQL := some m } }⟩
      have hends : ((w.record (Call.describe vdb.Name)).record
          (Call.getDatabaseEndpoint ⟨vdb.Namespace, vdb.Name⟩)).UpdateDatabaseEndpoint
          ⟨vdb.Namespace, vdb.Name, { Database := { MySQL := some m } }⟩ |>.2.databaseEndpoints
          = w.databaseEndpoints := by
        funext k
        rcases UpdateDatabaseEndpoint_endpoints
          ((w.record (Call.describe vdb.Name)).record
            (Call.getDatabaseEndpoint ⟨vdb.Namespace, vdb.Name⟩))
          ⟨vdb.Namespace, vdb.Name, { Database := { MySQL := some m } }⟩ k
          with hu | ⟨hk, _, hu⟩
        · exact hu
        · rw [hu, hk]
          exact hs.symm
      rcases hupd : ((w.record (Call.describe vdb.Name)).record
          (Call.getDatabaseEndpoint ⟨vdb.Namespace, vdb.Name⟩)).UpdateDatabaseEndpoint
          ⟨vdb.Namespace, vdb.Name, { Database := { MySQL := some m } }⟩ with ⟨r, w2⟩
      rw [hupd] at hstep hcalls hends
      simp only at hcalls hends
      rw [hstep] at hso
      unfold reconcileServices
      rw [hstep]
      cases r with
      | some e =>
        simp only
        refine ⟨hends, [Call.describe vdb.Name,
          Call.getDatabaseEndpoint ⟨vdb.Namespace, vdb.Name⟩,
          Call.updateDatabaseEndpoint
            ⟨vdb.Namespace, vdb.Name, { Database := { MySQL := some m } }⟩],
          hcalls.trans (by simp [List.append_assoc]), ?_⟩
        intro c hc
        simp only [List.mem_cons, List.mem_singleton, List.not_mem_nil, or_false] at hc
        exact hc
      | none =>
        simp only [Flow.world] at hso ⊢
        obtain ⟨i1, cs, i2, i3⟩ := ih w2 (by rw [hso.describeInstance]; exact hd)
          (by rw [hso.storeFault]; exact hg) (by rw [hends]; exact hs)
        refine ⟨i1.trans hends, [Call.describe vdb.Name,
          Call.getDatabaseEndpoint ⟨vdb.Namespace, vdb.Name⟩,
          Call.updateDatabaseEndpoint
            ⟨vdb.Namespace, vdb.Name, { Database := { MySQL := some m } }⟩] ++ cs,
          i2.trans (by rw [hcalls]; simp [List.append_assoc]), ?_⟩
        intro c hc
        simp only [List.cons_append, List.nil_append, List.mem_cons] at hc
        rcases hc with hc | hc | hc | hc
        · exact Or.inl hc
        · exact Or.inr (Or.inl hc)
        · exact Or.inr (Or.inr hc)
        · exact i3 c hc

/-- The loop when the instance is absent, its creation succeeds and no endpoint
is stored: the first MySQL service is provisioned and the loop is left. -/
theorem reconcileServices_provision (vdb : VirtualDatabase) (cls : DatabaseClass)
    (sg vpc pw : String) (mysql : DatabaseMySQL) (w : World)
    (hd : ∃ r e, w.describeInstance w.clock vdb.Name = (r, some e) ∧
      strings_Contains e.msg "DBInstanceNotFound" = true)
    (hc : w.createInstance (w.clock + 1) (instanceInput vdb cls sg vpc pw mysql) = none)
    (hg : w.storeFault (w.clock + 2) StoreOp.getDatabaseEndpoint = none)
    (hs : w.databaseEndpoints ⟨vdb.Namespace, vdb.Name⟩ = none)
    (svcs : List VirtualDatabaseService)
    (hfirst : svcs.findSome? (fun s => s.DatabaseMySQL) = some mysql) :
    (reconcileServices vdb cls sg vpc pw svcs w).2.calls
      = w.calls ++ [Call.describe vdb.Name,
          Call.createInstance (instanceInput vdb cls sg vpc pw mysql),
          Call.getDatabaseEndpoint ⟨vdb.Namespace, vdb.Name⟩,
          Call.createDatabaseEndpoint (newDatabaseEndpoint vdb cls pw mysql)] ∧
    (w.storeFault (w.clock + 3) StoreOp.createDatabaseEndpoint = none →
      (reconcileServices vdb cls sg vpc pw svcs w).1 = Outcome.returned {} (some errNotFound) ∧
      (reconcileServices vdb cls sg vpc pw svcs w).2.databaseEndpoints ⟨vdb.Namespace, vdb.Name⟩
        = some (newDatabaseEndpoint vdb cls pw mysql).Spec) := by
  induction svcs with
  | nil => simp at hfirst
  | cons svc rest ih =>
    obtain ⟨dm⟩ := svc
    cases dm with
    | none =>
      simp only [List.findSome?] at hfirst
      have := ih hfirst
      simpa [reconcileServices, reconcileService] using this
    | some my =>
      simp only [List.findSome?, Option.some.injEq] at hfirst
      subst hfirst
      obtain ⟨r, e, hd1, hd2⟩ := hd
      have hns : (newDatabaseEndpoint vdb cls pw my).Namespace = vdb.Namespace := rfl
      have hn : (newDatabaseEndpoint vdb cls pw my).Name = vdb.Name := rfl
      constructor
      · simp only [reconcileServices, reconcileService, World.Describe, hd1, hd2, if_true,
          World.CreateInstance, record_clock, record_createInstance, hc, syncDatabaseEndpoint,
          World.GetDatabaseEndpoint, record_storeFault, hg, record_databaseEndpoints, hs,
          errNotFound]
        have := CreateDatabaseEndpoint_calls
          (((w.record (Call.describe vdb.Name)).record
            (Call.createInstance (instanceInput vdb cls sg vpc pw my))).record
              (Call.getDatabaseEndpoint ⟨vdb.Namespace, vdb.Name⟩))
          (newDatabaseEndpoint vdb cls pw my)
        revert this
        cases (((w.record (Call.describe vdb.Name)).record
            (Call.createInstance (instanceInput vdb cls sg vpc pw my))).record
              (Call.getDatabaseEndpoint ⟨vdb.Namespace, vdb.Name⟩)).CreateDatabaseEndpoint
          (newDatabaseEndpoint vdb cls pw my) with
        | mk r2 w2 =>
          cases r2 <;> (intro h; simp only at h ⊢; rw [h]; simp [List.append_assoc])
      · intro hcr
        simp [reconcileServices, reconcileService, World.Describe, hd1, hd2,
          World.CreateInstance, hc, syncDatabaseEndpoint,
          World.GetDatabaseEndpoint, hg, hs, errNotFound, World.CreateDatabaseEndpoint, hcr,
          hns, hn]

theorem syncDatabaseEndpoint_populated (vdb : VirtualDatabase) (cls : DatabaseClass)
    (pw : String) (mysql : DatabaseMySQL) (rdsDesc : Option DescInstance) (w : World)
    (hd : ∀ d, rdsDesc = some d → d.Endpoint.Address ≠ "" ∧ uint32 d.Endpoint.Port ≠ 0)
    (k : NamespacedName) (hp : Populated (w.databaseEndpoints k)) :
    Populated ((syncDatabaseEndpoint vdb cls pw mysql rdsDesc w).world.databaseEndpoints k) := by
  rcases syncDatabaseEndpoint_cases vdb cls pw mysql rdsDesc w with
    ⟨o, h⟩ | ⟨o, h⟩ | h | ⟨desc, m, hdesc, _, _, ⟨e, h, _⟩ | ⟨h, _⟩⟩ <;> rw [h] <;>
    simp only [Flow.world]
  · exact hp
  · rw [CreateDatabaseEndpoint_endpoints
      (w.record (Call.getDatabaseEndpoint ⟨vdb.Namespace, vdb.Name⟩)) _ k hp.ne_none]
    exact hp
  · exact hp
  · rcases UpdateDatabaseEndpoint_endpoints
      (w.record (Call.getDatabaseEndpoint ⟨vdb.Namespace, vdb.Name⟩))
      (setHostPort ⟨vdb.Namespace, vdb.Name, { Database := { MySQL := some m } }⟩ m desc) k
      with hu | ⟨_, _, hu⟩
    · rw [hu]; exact hp
    · rw [hu]
      exact ⟨_, rfl, (hd desc hdesc).1, (hd desc hdesc).2⟩
  · rcases UpdateDatabaseEndpoint_endpoints
      (w.record (Call.getDatabaseEndpoint ⟨vdb.Namespace, vdb.Name⟩))
      (setHostPort ⟨vdb.Namespace, vdb.Name, { Database := { MySQL := some m } }⟩ m desc) k
      with hu | ⟨_, _, hu⟩
    · rw [hu]; exact hp
    · rw [hu]
      exact ⟨_, rfl, (hd desc hdesc).1, (hd desc hdesc).2⟩

theorem reconcileService_populated (vdb : VirtualDatabase) (cls : DatabaseClass)
    (sg vpc pw : String) (svc : VirtualDatabaseService) (w : World)
    (hd : ∀ t id d, (w.describeInstance t id).1 = some d →
      d.Endpoint.Address ≠ "" ∧ uint32 d.Endpoint.Port ≠ 0)
    (k : NamespacedName) (hp : Populated (w.databaseEndpoints k)) :
    Populated ((reconcileService vdb cls sg vpc pw svc w).world.databaseEndpoints k) := by
  rcases reconcileService_cases vdb cls sg vpc pw svc w with
    ⟨_, h⟩ | ⟨mysql, _, ⟨e, h⟩ | h | h⟩ <;> rw [h]
  · exact hp
  · exact hp
  · exact syncDatabaseEndpoint_populated vdb cls pw mysql _ _ (hd _ _) k hp
  · exact syncDatabaseEndpoint_populated vdb cls pw mysql _ _ (hd _ _) k hp

theorem reconcileServices_populated (vdb : VirtualDatabase) (cls : DatabaseClass)
    (sg vpc pw : String) (k : NamespacedName) (svcs : List VirtualDatabaseService) :
    ∀ w : World,
    (∀ t id d, (w.describeInstance t id).1 = some d →
      d.Endpoint.Address ≠ "" ∧ uint32 d.Endpoint.Port ≠ 0) →
    Populated (w.databaseEndpoints k) →
    Populated ((reconcileServices vdb cls sg vpc pw svcs w).2.databaseEndpoints k) := by
  induction svcs with
  | nil => intro w _ hp; exact hp
  | cons svc rest ih =>
    intro w hd hp
    have hso := reconcileService_sameOracles vdb cls sg vpc pw svc w
    have hpop := reconcileService_populated vdb cls sg vpc pw svc w hd k hp
    unfold reconcileServices
    cases hf : reconcileService vdb cls sg vpc pw svc w with
    | next w1 =>
      rw [hf] at hso hpop
      simp only [Flow.world] at hso hpop
      exact ih w1 (by rw [hso.describeInstance]; exact hd) hpop
    | done o w1 =>
      rw [hf] at hpop
      exact hpop

/-! ## The requeue-after of the cloud convergence -/

theorem syncDatabaseEndpoint_requeueAfter (vdb : VirtualDatabase) (cls : DatabaseClass)
    (pw : String) (mysql : DatabaseMySQL) (rdsDesc : Option DescInstance) (w w1 : World)
    (res : Result) (err : Option GoError)
    (h : syncDatabaseEndpoint vdb cls pw mysql rdsDesc w
      = Flow.done (Outcome.returned res err) w1) :
    res.RequeueAfter = 0 := by
  unfold syncDatabaseEndpoint at h
  split at h
  · split at h
    · split at h <;>
        (simp only [Flow.done.injEq, Outcome.returned.injEq] at h
         obtain ⟨⟨h1, _⟩, _⟩ := h
         subst h1
         rfl)
    · simp only [Flow.done.injEq, Outcome.returned.injEq] at h
      obtain ⟨⟨h1, _⟩, _⟩ := h
      subst h1
      rfl
  · split at h
    · split at h
      · simp at h
      · split at h
        · simp only [Flow.done.injEq, Outcome.returned.injEq] at h
          obtain ⟨⟨h1, _⟩, _⟩ := h
          subst h1
          rfl
        · simp at h
    · simp at h

theorem reconcileService_requeueAfter (vdb : VirtualDatabase) (cls : DatabaseClass)
    (sg vpc pw : String) (svc : VirtualDatabaseService) (w w1 : World)
    (res : Result) (err : Option GoError)
    (h : reconcileService vdb cls sg vpc pw svc w = Flow.done (Outcome.returned res err) w1) :
    res.RequeueAfter = 0 := by
  rcases reconcileService_cases vdb cls sg vpc pw svc w with
    ⟨_, h2⟩ | ⟨mysql, _, ⟨e, h2⟩ | h2 | h2⟩ <;> rw [h2] at h
  · simp at h
  · simp only [Flow.done.injEq, Outcome.returned.injEq] at h
    obtain ⟨⟨h1, _⟩, _⟩ := h
    subst h1
    rfl
  · exact syncDatabaseEndpoint_requeueAfter _ _ _ _ _ _ _ _ _ h
  · exact syncDatabaseEndpoint_requeueAfter _ _ _ _ _ _ _ _ _ h

theorem reconcileServices_requeueAfter (vdb : VirtualDatabase) (cls : DatabaseClass)
    (sg vpc pw : String) (res : Result) (err : Option GoError)
    (svcs : List VirtualDatabaseService) :
    ∀ w : World,
    (reconcileServices vdb cls sg vpc pw svcs w).1 = Outcome.returned res err →
    res.RequeueAfter = 0 := by
  induction svcs with
  | nil =>
    intro w h
    simp only [reconcileServices, Outcome.returned.injEq] at h
    obtain ⟨h1, _⟩ := h
    subst h1
    rfl
  | cons svc rest ih =>
    intro w h
    unfold reconcileServices at h
    cases hf : reconcileService vdb cls sg vpc pw svc w with
    | next w1 =>
      rw [hf] at h
      exact ih w1 h
    | done o w1 =>
      rw [hf] at h
      simp only at h
      subst h
      exact reconcileService_requeueAfter vdb cls sg vpc pw svc w w1 res err hf

/-- The cloud convergence never asks for a delayed requeue: whatever the store and the
provider answer, a result returned for a cloud-backed VirtualDatabase has
`RequeueAfter` = 0. -/
theorem Reconcile_cloudBacked_requeueAfter (keys : AnnotationKeys) (req : NamespacedName)
    (w : World) (vdb : VirtualDatabase) (cls : DatabaseClass) (res : Result)
    (err : Option GoError) (hcb : CloudBacked w req vdb cls)
    (h : (Reconcile keys req w).1 = Outcome.returned res err) :
    res.RequeueAfter = 0 := by
  rw [Reconcile_cloudBacked keys req w vdb cls hcb] at h
  unfold reconcileAWSRds at h
  exact reconcileServices_requeueAfter vdb cls _ _ _ res err vdb.Spec.Services _ h

/-! ## C1: provisioning of an absent instance -/

/-- C1 (as amended). For a VirtualDatabase that resolves to a class with provisioner
AWSRdsInstance and whose first MySQL service has database name `d`: if `Describe` reports
DBInstanceNotFound, `CreateInstance` succeeds and no DatabaseEndpoint is stored (its lookup
reports NotFound), then the calls of the pass are exactly the six listed.  There is one
`CreateInstance`: identifier = the name of the VirtualDatabase, engine, version, instance
class, storage and master username of the class, database name `d`.  There is one `Create`
of a DatabaseEndpoint: namespace and name of the VirtualDatabase, empty host, port 0, user =
the default master username of the class, db = `d`, password = the master password passed
to `CreateInstance`.  When the store accepts the `Create`, that endpoint is the stored one. -/
theorem Reconcile_provisions_first_mysql_service (keys : AnnotationKeys) (req : NamespacedName)
    (w : World) (vdb : VirtualDatabase) (cls : DatabaseClass) (d : String)
    (hcb : CloudBacked w req vdb cls)
    (hfirst : vdb.Spec.Services.findSome? (fun s => s.DatabaseMySQL) = some { DB := d })
    (hdesc : ∀ t, ∃ r e, w.describeInstance t vdb.Name = (r, some e) ∧
      strings_Contains e.msg "DBInstanceNotFound" = true)
    (hcreate : ∀ t input, w.createInstance t input = none)
    (hep : w.databaseEndpoints ⟨vdb.Namespace, vdb.Name⟩ = none)
    (hget : ∀ t, w.storeFault t StoreOp.getDatabaseEndpoint = none) :
    (Reconcile keys req w).2.calls
      = w.calls ++ [
          Call.getVirtualDatabase req,
          Call.getDatabaseClass ⟨vdb.Namespace, vdb.Spec.DatabaseClassName⟩,
          Call.describe vdb.Name,
          Call.createInstance {
            Engine := cls.Spec.Engine.Name,
            EngineVersion := cls.Spec.Engine.Version,
            DBInstanceIdentifier := vdb.Name,
            MasterUsername := cls.Spec.DefaultMasterUsername,
            MasterUserPassword := w.randomString (w.clock + 2),
            DBInstanceClass := cls.Spec.Instance.Class,
            AllocatedStorage := cls.Spec.Storage.AllocatedStorage,
            DBName := d,
            VpcSecurityGroupIds :=
              strings_Split (mapIndex cls.Annotations keys.AnnotationsVPCSecurityGroupIds) ',',
            DBSubnetGroup := mapIndex cls.Annotations keys.AnnotationsSubnetGroupName },
          Call.getDatabaseEndpoint ⟨vdb.Namespace, vdb.Name⟩,
          Call.createDatabaseEndpoint {
            Namespace := vdb.Namespace,
            Name := vdb.Name,
            Spec := { Database := { MySQL := some {
              Host := "",
              Port := 0,
              User := cls.Spec.DefaultMasterUsername,
              Password := w.randomString (w.clock + 2),
              DB := d } } } }] ∧
    ((∀ t, w.storeFault t StoreOp.createDatabaseEndpoint = none) →
      (Reconcile keys req w).2.databaseEndpoints ⟨vdb.Namespace, vdb.Name⟩
        = some { Database := { MySQL := some {
            Host := "",
            Port := 0,
            User := cls.Spec.DefaultMasterUsername,
            Password := w.randomString (w.clock + 2),
            DB := d } } }) := by
  rw [Reconcile_cloudBacked keys req w vdb cls hcb]
  unfold reconcileAWSRds
  obtain ⟨h1, h2⟩ := reconcileServices_provision vdb cls
    (mapIndex cls.Annotations keys.AnnotationsSubnetGroupName)
    (mapIndex cls.Annotations keys.AnnotationsVPCSecurityGroupIds)
    (((w.record (Call.getVirtualDatabase req)).record
      (Call.getDatabaseClass ⟨vdb.Namespace, vdb.Spec.DatabaseClassName⟩)).randomString
      ((w.record (Call.getVirtualDatabase req)).record
        (Call.getDatabaseClass ⟨vdb.Namespace, vdb.Spec.DatabaseClassName⟩)).clock)
    { DB := d }
    ((w.record (Call.getVirtualDatabase req)).record
      (Call.getDatabaseClass ⟨vdb.Namespace, vdb.Spec.DatabaseClassName⟩))
    (hdesc _) (hcreate _ _) (hget _) hep vdb.Spec.Services hfirst
  constructor
  · rw [h1]
    simp [instanceInput, newDatabaseEndpoint, List.append_assoc]
  · intro hcr
    rw [(h2 (hcr _)).2]
    simp [newDatabaseEndpoint]

/-- C1, counterexample. The VirtualDatabase `ns/app1` declares the MySQL services `a` and
`b`, so it has a MySQL service with database name `d = b`; `Describe` reports
DBInstanceNotFound, `CreateInstance` succeeds and no endpoint is stored.  The pass issues
one `CreateInstance` and one endpoint `Create`, both for the database `a`: no
`CreateInstance` call carries the database name `b`. -/
theorem Reconcile_second_mysql_service_not_provisioned :
    mysqlService "b" ∈ (exampleVdb [mysqlService "a", mysqlService "b"]).Spec.Services ∧
    CloudBacked
      (exampleWorld "AWSRdsInstance" [mysqlService "a", mysqlService "b"] none describeNotFound)
      exampleReq (exampleVdb [mysqlService "a", mysqlService "b"])
      (exampleClass "AWSRdsInstance") ∧
    strings_Contains "DBInstanceNotFound: app1" "DBInstanceNotFound" = true ∧
    (Reconcile exampleKeys exampleReq
      (exampleWorld "AWSRdsInstance" [mysqlService "a", mysqlService "b"] none
        describeNotFound)).2.calls
      = [Call.getVirtualDatabase ⟨"ns", "app1"⟩,
         Call.getDatabaseClass ⟨"ns", "cls"⟩,
         Call.describe "app1",
         Call.createInstance {
           Engine := "mysql", EngineVersion := "8.0", DBInstanceIdentifier := "app1",
           MasterUsername := "admin", MasterUserPassword := "s3cret",
           DBInstanceClass := "db.t3.micro", AllocatedStorage := 20, DBName := "a",
           VpcSecurityGroupIds := ["a", "b"], DBSubnetGroup := "sg" },
         Call.getDatabaseEndpoint ⟨"ns", "app1"⟩,
         Call.createDatabaseEndpoint {
           Namespace := "ns", Name := "app1",
           Spec := { Database := { MySQL := some {
             Host := "", Port := 0, User := "admin", Password := "s3cret", DB := "a" } } } }] ∧
    ¬ (∃ input, input.DBName = "b" ∧ Call.createInstance input ∈
        (Reconcile exampleKeys exampleReq
          (exampleWorld "AWSRdsInstance" [mysqlService "a", mysqlService "b"] none
            describeNotFound)).2.calls) := by
  have hcalls : (Reconcile exampleKeys exampleReq
      (exampleWorld "AWSRdsInstance" [mysqlService "a", mysqlService "b"] none
        describeNotFound)).2.calls
      = [Call.getVirtualDatabase ⟨"ns", "app1"⟩,
         Call.getDatabaseClass ⟨"ns", "cls"⟩,
         Call.describe "app1",
         Call.createInstance {
           Engine := "mysql", EngineVersion := "8.0", DBInstanceIdentifier := "app1",
           MasterUsername := "admin", MasterUserPassword := "s3cret",
           DBInstanceClass := "db.t3.micro", AllocatedStorage := 20, DBName := "a",
           VpcSecurityGroupIds := ["a", "b"], DBSubnetGroup := "sg" },
         Call.getDatabaseEndpoint ⟨"ns", "app1"⟩,
         Call.createDatabaseEndpoint {
           Namespace := "ns", Name := "app1",
           Spec := { Database := { MySQL := some {
             Host := "", Port := 0, User := "admin", Password := "s3cret", DB := "a" } } } }] := by
    decide
  refine ⟨by decide, exampleWorld_cloudBacked _ _ _, by decide, hcalls, ?_⟩
  rintro ⟨input, hdb, hmem⟩
  rw [hcalls] at hmem
  simp only [List.mem_cons, List.mem_singleton, Call.createInstance.injEq, reduceCtorEq,
    List.not_mem_nil, or_false, false_or] at hmem
  subst hmem
  revert hdb
  decide

/-- C1, witness: the VirtualDatabase `ns/app1` with the MySQL services `a` and `b`, an
absent instance and no stored endpoint. -/
theorem Reconcile_provisions_first_mysql_service_witness :
    CloudBacked
      (exampleWorld "AWSRdsInstance" [mysqlService "a", mysqlService "b"] none describeNotFound)
      exampleReq (exampleVdb [mysqlService "a", mysqlService "b"])
      (exampleClass "AWSRdsInstance") ∧
    (exampleVdb [mysqlService "a", mysqlService "b"]).Spec.Services.findSome?
      (fun s => s.DatabaseMySQL) = some { DB := "a" } ∧
    (Reconcile exampleKeys exampleReq
      (exampleWorld "AWSRdsInstance" [mysqlService "a", mysqlService "b"] none
        describeNotFound)).2.databaseEndpoints ⟨"ns", "app1"⟩
      = some { Database := { MySQL := some {
          Host := "", Port := 0, User := "admin", Password := "s3cret", DB := "a" } } } :=
  ⟨exampleWorld_cloudBacked _ _ _, rfl,
    (Reconcile_provisions_first_mysql_service exampleKeys exampleReq
      (exampleWorld "AWSRdsInstance" [mysqlService "a", mysqlService "b"] none describeNotFound)
      (exampleVdb [mysqlService "a", mysqlService "b"]) (exampleClass "AWSRdsInstance") "a"
      (exampleWorld_cloudBacked _ _ _) rfl
      (fun _ => ⟨none, _, rfl, by decide⟩) (fun _ _ => rfl) rfl (fun _ => rfl)).2
      (fun _ => rfl)⟩

/-! ## C2: a live instance fills in the endpoint -/

/-- C2. For a cloud-backed VirtualDatabase with a MySQL service whose DatabaseEndpoint is
stored (with its MySQL record `m`): if `Describe` succeeds with the endpoint `(h, p)` and
the endpoint `Update` succeeds, then after the pass the stored DatabaseEndpoint has host
`h` and port `uint32(p)`, which is `p` for every `p` in the range of a `uint32`; its user,
password and db are those of `m`; and the pass issues no `CreateInstance` call. -/
theorem Reconcile_live_updates_endpoint (keys : AnnotationKeys) (req : NamespacedName)
    (w : World) (vdb : VirtualDatabase) (cls : DatabaseClass) (m : MySQL) (h : String) (p : Int)
    (hcb : CloudBacked w req vdb cls)
    (hsvc : 0 < mysqlCount vdb.Spec.Services)
    (hep : w.databaseEndpoints ⟨vdb.Namespace, vdb.Name⟩ = some { Database := { MySQL := some m } })
    (hget : ∀ t, w.storeFault t StoreOp.getDatabaseEndpoint = none)
    (hdesc : ∀ t, w.describeInstance t vdb.Name
      = (some { Endpoint := { Address := h, Port := p } }, none))
    (hupd : ∀ t, w.storeFault t StoreOp.updateDatabaseEndpoint = none) :
    (Reconcile keys req w).2.databaseEndpoints ⟨vdb.Namespace, vdb.Name⟩
      = some { Database := { MySQL := some {
          Host := h, Port := uint32 p, User := m.User, Password := m.Password, DB := m.DB } } } ∧
    (0 ≤ p → p < 4294967296 → ((uint32 p : Nat) : Int) = p) ∧
    (Reconcile keys req w).2.calls.countP Call.isCreateInstance
      = w.calls.countP Call.isCreateInstance := by
  rw [Reconcile_cloudBacked keys req w vdb cls hcb]
  unfold reconcileAWSRds
  have hl := reconcileServices_live vdb cls
    (mapIndex cls.Annotations keys.AnnotationsSubnetGroupName)
    (mapIndex cls.Annotations keys.AnnotationsVPCSecurityGroupIds)
    (((w.record (Call.getVirtualDatabase req)).record
      (Call.getDatabaseClass ⟨vdb.Namespace, vdb.Spec.DatabaseClassName⟩)).randomString
      ((w.record (Call.getVirtualDatabase req)).record
        (Call.getDatabaseClass ⟨vdb.Namespace, vdb.Spec.DatabaseClassName⟩)).clock)
    { Endpoint := { Address := h, Port := p } } m.User m.Password m.DB vdb.Spec.Services
    ((w.record (Call.getVirtualDatabase req)).record
      (Call.getDatabaseClass ⟨vdb.Namespace, vdb.Spec.DatabaseClassName⟩))
    m.Host m.Port hdesc hget hupd hep
  obtain ⟨_, h2, h3, _⟩ := hl
  have hne : mysqlCount vdb.Spec.Services ≠ 0 := by omega
  refine ⟨?_, uint32_of_inRange p, ?_⟩
  · rw [h2]
    simp [hne]
  · rw [h3]
    simp [List.countP_append, Call.isCreateInstance]

/-- C2, witness: the endpoint `ns/app1` is stored with empty host and port 0, the
instance is described at `db.example:3306`. -/
theorem Reconcile_live_updates_endpoint_witness :
    CloudBacked
      (exampleWorld "AWSRdsInstance" [mysqlService "a"] (some (exampleEndpoint "" 0))
        (describeLive "db.example" 3306))
      exampleReq (exampleVdb [mysqlService "a"]) (exampleClass "AWSRdsInstance") ∧
    (Reconcile exampleKeys exampleReq
      (exampleWorld "AWSRdsInstance" [mysqlService "a"] (some (exampleEndpoint "" 0))
        (describeLive "db.example" 3306))).2.databaseEndpoints ⟨"ns", "app1"⟩
      = some { Database := { MySQL := some {
          Host := "db.example", Port := uint32 3306, User := "admin", Password := "pw",
          DB := "a" } } } ∧
    ((uint32 3306 : Nat) : Int) = 3306 ∧
    (Reconcile exampleKeys exampleReq
      (exampleWorld "AWSRdsInstance" [mysqlService "a"] (some (exampleEndpoint "" 0))
        (describeLive "db.example" 3306))).2.calls.countP Call.isCreateInstance = 0 :=
  have h := Reconcile_live_updates_endpoint exampleKeys exampleReq
    (exampleWorld "AWSRdsInstance" [mysqlService "a"] (some (exampleEndpoint "" 0))
      (describeLive "db.example" 3306))
    (exampleVdb [mysqlService "a"]) (exampleClass "AWSRdsInstance")
    { Host := "", Port := 0, User := "admin", Password := "pw", DB := "a" } "db.example" 3306
    (exampleWorld_cloudBacked _ _ _) (by decide) rfl (fun _ => rfl) (fun _ => rfl)
    (fun _ => rfl)
  ⟨exampleWorld_cloudBacked _ _ _, h.1, h.2.1 (by decide) (by decide), h.2.2⟩

/-! ## C3: the error returned after the endpoint is created -/

/-- C3, the code at the failing input. The lookup of the DatabaseEndpoint `ns/app1`
reports NotFound and the `Create` that follows succeeds (the endpoint is stored after the
pass), yet `Reconcile` returns the NotFound error of the lookup, not a nil error. -/
theorem Reconcile_returns_notFound_after_creating_endpoint :
    (Reconcile exampleKeys exampleReq
      (exampleWorld "AWSRdsInstance" [mysqlService "a"] none describeNotFound)).1
      = Outcome.returned { Requeue := false, RequeueAfter := 0 }
          (some { msg := "not found", notFound := true }) ∧
    (Reconcile exampleKeys exampleReq
      (exampleWorld "AWSRdsInstance" [mysqlService "a"] none
        describeNotFound)).2.databaseEndpoints ⟨"ns", "app1"⟩
      = some { Database := { MySQL := some {
          Host := "", Port := 0, User := "admin", Password := "s3cret", DB := "a" } } } := by
  constructor <;> decide

/-! ## C4: a failure of Describe other than not-found -/

/-- C4, the code at the failing input. `Describe` fails with a throttling error, which
does not contain `DBInstanceNotFound`.  With the endpoint stored, `Reconcile` looks the
endpoint up and returns a nil error; with no endpoint stored, it looks the endpoint up and
creates one.  The failure of `Describe` is returned in neither case. -/
theorem Reconcile_swallows_describe_failure :
    strings_Contains "Throttling: Rate exceeded" "DBInstanceNotFound" = false ∧
    (Reconcile exampleKeys exampleReq
      (exampleWorld "AWSRdsInstance" [mysqlService "a"] (some (exampleEndpoint "db.example" 3306))
        describeThrottled)).1
      = Outcome.returned { Requeue := false, RequeueAfter := 0 } none ∧
    (Reconcile exampleKeys exampleReq
      (exampleWorld "AWSRdsInstance" [mysqlService "a"] (some (exampleEndpoint "db.example" 3306))
        describeThrottled)).2.calls
      = [Call.getVirtualDatabase ⟨"ns", "app1"⟩,
         Call.getDatabaseClass ⟨"ns", "cls"⟩,
         Call.describe "app1",
         Call.getDatabaseEndpoint ⟨"ns", "app1"⟩] ∧
    (Reconcile exampleKeys exampleReq
      (exampleWorld "AWSRdsInstance" [mysqlService "a"] none describeThrottled)).2.calls
      = [Call.getVirtualDatabase ⟨"ns", "app1"⟩,
         Call.getDatabaseClass ⟨"ns", "cls"⟩,
         Call.describe "app1",
         Call.getDatabaseEndpoint ⟨"ns", "app1"⟩,
         Call.createDatabaseEndpoint {
           Namespace := "ns", Name := "app1",
           Spec := { Database := { MySQL := some {
             Host := "", Port := 0, User := "admin", Password := "s3cret", DB := "a" } } } }] := by
  refine ⟨by decide, by decide, by decide, by decide⟩

/-! ## C5: a pass over an endpoint that is in sync -/

/-- C5 (as amended). For a cloud-backed VirtualDatabase whose `Describe` succeeds with
the endpoint `(h, p)` and whose stored DatabaseEndpoint already has host `h` and port
`uint32(p)`: a pass leaves the stored endpoints unchanged, and after the two lookups of the
VirtualDatabase and of the class it issues only `Describe` calls, lookups of the endpoint
and `Update` calls that write the stored endpoint back unchanged; it issues no
`CreateInstance` and no endpoint `Create`. -/
theorem Reconcile_in_sync (keys : AnnotationKeys) (req : NamespacedName)
    (w : World) (vdb : VirtualDatabase) (cls : DatabaseClass) (m : MySQL) (h : String) (p : Int)
    (hcb : CloudBacked w req vdb cls)
    (hep : w.databaseEndpoints ⟨vdb.Namespace, vdb.Name⟩ = some { Database := { MySQL := some m } })
    (hhost : m.Host = h) (hport : m.Port = uint32 p)
    (hget : ∀ t, w.storeFault t StoreOp.getDatabaseEndpoint = none)
    (hdesc : ∀ t, w.describeInstance t vdb.Name
      = (some { Endpoint := { Address := h, Port := p } }, none)) :
    (Reconcile keys req w).2.databaseEndpoints = w.databaseEndpoints ∧
    ∃ cs, (Reconcile keys req w).2.calls
        = w.calls ++ [Call.getVirtualDatabase req,
            Call.getDatabaseClass ⟨vdb.Namespace, vdb.Spec.DatabaseClassName⟩] ++ cs ∧
      (∀ c ∈ cs, c = Call.describe vdb.Name ∨
        c = Call.getDatabaseEndpoint ⟨vdb.Namespace, vdb.Name⟩ ∨
        c = Call.updateDatabaseEndpoint
          ⟨vdb.Namespace, vdb.Name, { Database := { MySQL := some m } }⟩) ∧
      cs.countP Call.isCreateInstance = 0 ∧
      cs.countP Call.isCreateDatabaseEndpoint = 0 := by
  rw [Reconcile_cloudBacked keys req w vdb cls hcb]
  unfold reconcileAWSRds
  obtain ⟨h1, cs, h2, h3⟩ := reconcileServices_in_sync vdb cls
    (mapIndex cls.Annotations keys.AnnotationsSubnetGroupName)
    (mapIndex cls.Annotations keys.AnnotationsVPCSecurityGroupIds)
    (((w.record (Call.getVirtualDatabase req)).record
      (Call.getDatabaseClass ⟨vdb.Namespace, vdb.Spec.DatabaseClassName⟩)).randomString
      ((w.record (Call.getVirtualDatabase req)).record
        (Call.getDatabaseClass ⟨vdb.Namespace, vdb.Spec.DatabaseClassName⟩)).clock)
    { Endpoint := { Address := h, Port := p } } m hhost hport vdb.Spec.Services
    ((w.record (Call.getVirtualDatabase req)).record
      (Call.getDatabaseClass ⟨vdb.Namespace, vdb.Spec.DatabaseClassName⟩))
    hdesc hget hep
  refine ⟨h1, cs, ?_, h3, ?_, ?_⟩
  · rw [h2]
    simp [List.append_assoc]
  · rw [List.countP_eq_zero]
    intro c hc
    rcases h3 c hc with hc | hc | hc <;> simp [hc, Call.isCreateInstance]
  · rw [List.countP_eq_zero]
    intro c hc
    rcases h3 c hc with hc | hc | hc <;> simp [hc, Call.isCreateDatabaseEndpoint]

/-- C5, counterexample. The stored endpoint of `ns/app1` already has the host
`db.example` and the port 3306 that `Describe` reports; the pass still issues one endpoint
`Update`, a mutating call. -/
theorem in_sync_pass_still_updates :
    (exampleWorld "AWSRdsInstance" [mysqlService "a"] (some (exampleEndpoint "db.example" 3306))
      (describeLive "db.example" 3306)).databaseEndpoints ⟨"ns", "app1"⟩
      = some { Database := { MySQL := some {
          Host := "db.example", Port := 3306, User := "admin", Password := "pw", DB := "a" } } } ∧
    (Reconcile exampleKeys exampleReq
      (exampleWorld "AWSRdsInstance" [mysqlService "a"] (some (exampleEndpoint "db.example" 3306))
        (describeLive "db.example" 3306))).2.calls
      = [Call.getVirtualDatabase ⟨"ns", "app1"⟩,
         Call.getDatabaseClass ⟨"ns", "cls"⟩,
         Call.describe "app1",
         Call.getDatabaseEndpoint ⟨"ns", "app1"⟩,
         Call.updateDatabaseEndpoint {
           Namespace := "ns", Name := "app1",
           Spec := { Database := { MySQL := some {
             Host := "db.example", Port := 3306, User := "admin", Password := "pw",
             DB := "a" } } } }] ∧
    ¬ ((Reconcile exampleKeys exampleReq
      (exampleWorld "AWSRdsInstance" [mysqlService "a"] (some (exampleEndpoint "db.example" 3306))
        (describeLive "db.example" 3306))).2.calls.countP Call.isUpdateDatabaseEndpoint = 0) := by
  refine ⟨by decide, by decide, by decide⟩

/-- C5, witness: the endpoint `ns/app1` is stored at `db.example:3306`, as described. -/
theorem Reconcile_in_sync_witness :
    CloudBacked
      (exampleWorld "AWSRdsInstance" [mysqlService "a"] (some (exampleEndpoint "db.example" 3306))
        (describeLive "db.example" 3306))
      exampleReq (exampleVdb [mysqlService "a"]) (exampleClass "AWSRdsInstance") ∧
    (Reconcile exampleKeys exampleReq
      (exampleWorld "AWSRdsInstance" [mysqlService "a"] (some (exampleEndpoint "db.example" 3306))
        (describeLive "db.example" 3306))).2.databaseEndpoints
      = (exampleWorld "AWSRdsInstance" [mysqlService "a"]
          (some (exampleEndpoint "db.example" 3306))
          (describeLive "db.example" 3306)).databaseEndpoints :=
  ⟨exampleWorld_cloudBacked _ _ _,
    (Reconcile_in_sync exampleKeys exampleReq
      (exampleWorld "AWSRdsInstance" [mysqlService "a"] (some (exampleEndpoint "db.example" 3306))
        (describeLive "db.example" 3306))
      (exampleVdb [mysqlService "a"]) (exampleClass "AWSRdsInstance")
      { Host := "db.example", Port := 3306, User := "admin", Password := "pw", DB := "a" }
      "db.example" 3306
      (exampleWorld_cloudBacked _ _ _) rfl rfl (by decide) (fun _ => rfl) (fun _ => rfl)).1⟩

/-! ## C6: the number of mutating calls of one invocation -/

/-- C6 (as amended). For every request and every behaviour of the store and of the
provider, one `Reconcile` invocation issues at most one DatabaseEndpoint `Create`, and at
most one `CreateInstance` and at most one DatabaseEndpoint `Update` per MySQL service of
the VirtualDatabase it loaded (so at most one of each when at most one service declares
MySQL). -/
theorem Reconcile_call_bounds (keys : AnnotationKeys) (req : NamespacedName) (w : World) :
    (Reconcile keys req w).2.calls.countP Call.isCreateDatabaseEndpoint
      ≤ w.calls.countP Call.isCreateDatabaseEndpoint + 1 ∧
    (Reconcile keys req w).2.calls.countP Call.isCreateInstance
      ≤ w.calls.countP Call.isCreateInstance
        + mysqlCount (w.GetVirtualDatabase req).1.1.Spec.Services ∧
    (Reconcile keys req w).2.calls.countP Call.isUpdateDatabaseEndpoint
      ≤ w.calls.countP Call.isUpdateDatabaseEndpoint
        + mysqlCount (w.GetVirtualDatabase req).1.1.Spec.Services := by
  have hw := GetVirtualDatabase_world w req
  unfold Reconcile getRuntimeVirtualDatabase
  rcases hg : w.GetVirtualDatabase req with ⟨⟨rt, err⟩, w1⟩
  rw [hg] at hw
  simp only at hw
  subst hw
  cases err with
  | some e =>
    simp only
    split <;>
      simp [List.countP_append, Call.isCreateInstance, Call.isUpdateDatabaseEndpoint,
        Call.isCreateDatabaseEndpoint]
  | none =>
    simp only
    unfold reconcile
    split
    · have hw2 := GetDatabaseClass_world (w.record (Call.getVirtualDatabase req))
        ⟨rt.Namespace, rt.Spec.DatabaseClassName⟩
      rcases hc : (w.record (Call.getVirtualDatabase req)).GetDatabaseClass
        ⟨rt.Namespace, rt.Spec.DatabaseClassName⟩ with ⟨⟨c, cerr⟩, w2⟩
      rw [hc] at hw2
      simp only at hw2
      subst hw2
      cases cerr with
      | some e =>
        simp [List.countP_append, Call.isCreateInstance, Call.isUpdateDatabaseEndpoint,
          Call.isCreateDatabaseEndpoint]
      | none =>
        simp only
        split
        · unfold reconcileAWSRds
          have hl := reconcileServices_counts rt c
            (mapIndex c.Annotations keys.AnnotationsSubnetGroupName)
            (mapIndex c.Annotations keys.AnnotationsVPCSecurityGroupIds)
            (((w.record (Call.getVirtualDatabase req)).record
              (Call.getDatabaseClass ⟨rt.Namespace, rt.Spec.DatabaseClassName⟩)).randomString
              ((w.record (Call.getVirtualDatabase req)).record
                (Call.getDatabaseClass ⟨rt.Namespace, rt.Spec.DatabaseClassName⟩)).clock)
            rt.Spec.Services
            ((w.record (Call.getVirtualDatabase req)).record
              (Call.getDatabaseClass ⟨rt.Namespace, rt.Spec.DatabaseClassName⟩))
          simp only [record_calls, List.countP_append, List.countP_singleton,
            Call.isCreateInstance, Call.isUpdateDatabaseEndpoint,
            Call.isCreateDatabaseEndpoint] at hl
          simp at hl ⊢
          obtain ⟨h1, h2, h3⟩ := hl
          exact ⟨h3, h1, h2⟩
        · simp [List.countP_append, Call.isCreateInstance, Call.isUpdateDatabaseEndpoint,
            Call.isCreateDatabaseEndpoint]
    · simp [List.countP_append, Call.isCreateInstance, Call.isUpdateDatabaseEndpoint,
        Call.isCreateDatabaseEndpoint]

/-- C6, counterexample. The VirtualDatabase `ns/app1` declares two MySQL services.
With the endpoint stored and the instance described, one invocation issues two endpoint
`Update` calls; with the endpoint stored and the instance reported absent, it issues two
`CreateInstance` calls. -/
theorem Reconcile_two_services_two_calls :
    (Reconcile exampleKeys exampleReq
      (exampleWorld "AWSRdsInstance" [mysqlService "a", mysqlService "b"]
        (some (exampleEndpoint "" 0))
        (describeLive "db.example" 3306))).2.calls.countP Call.isUpdateDatabaseEndpoint = 2 ∧
    (Reconcile exampleKeys exampleReq
      (exampleWorld "AWSRdsInstance" [mysqlService "a", mysqlService "b"]
        (some (exampleEndpoint "" 0))
        describeNotFound)).2.calls.countP Call.isCreateInstance = 2 := by
  constructor <;> decide

/-! ## C7: a populated endpoint -/

/-- C7 (as amended). For every state in which a stored DatabaseEndpoint has a non-empty
host and a non-zero port, and for every behaviour of the store and of the provider in which
each description returned by `Describe` carries a non-empty address and a port that is
non-zero as a `uint32`, a `Reconcile` pass leaves that endpoint with a non-empty host and a
non-zero port. -/
theorem Reconcile_keeps_populated (keys : AnnotationKeys) (req : NamespacedName) (w : World)
    (hd : ∀ t id d, (w.describeInstance t id).1 = some d →
      d.Endpoint.Address ≠ "" ∧ uint32 d.Endpoint.Port ≠ 0)
    (k : NamespacedName) (hp : Populated (w.databaseEndpoints k)) :
    Populated ((Reconcile keys req w).2.databaseEndpoints k) := by
  rcases Reconcile_cases keys req w with h | ⟨key, h⟩ | ⟨rt, cls, sg, vpc, pw, key, h⟩
  · rw [h]; exact hp
  · rw [h]; exact hp
  · rw [h]
    exact reconcileServices_populated rt cls sg vpc pw k rt.Spec.Services _ hd hp

/-- C7, counterexample. The endpoint `ns/app1` is stored at `db.example:3306`;
`Describe` succeeds with a description that has no coordinates (empty address, port 0).
After the pass the stored endpoint has an empty host and port 0. -/
theorem Reconcile_resets_populated_endpoint :
    Populated
      ((exampleWorld "AWSRdsInstance" [mysqlService "a"]
        (some (exampleEndpoint "db.example" 3306))
        (describeLive "" 0)).databaseEndpoints ⟨"ns", "app1"⟩) ∧
    (Reconcile exampleKeys exampleReq
      (exampleWorld "AWSRdsInstance" [mysqlService "a"]
        (some (exampleEndpoint "db.example" 3306))
        (describeLive "" 0))).2.databaseEndpoints ⟨"ns", "app1"⟩
      = some { Database := { MySQL := some {
          Host := "", Port := 0, User := "admin", Password := "pw", DB := "a" } } } ∧
    ¬ Populated
      ((Reconcile exampleKeys exampleReq
        (exampleWorld "AWSRdsInstance" [mysqlService "a"]
          (some (exampleEndpoint "db.example" 3306))
          (describeLive "" 0))).2.databaseEndpoints ⟨"ns", "app1"⟩) := by
  have hafter : (Reconcile exampleKeys exampleReq
      (exampleWorld "AWSRdsInstance" [mysqlService "a"]
        (some (exampleEndpoint "db.example" 3306))
        (describeLive "" 0))).2.databaseEndpoints ⟨"ns", "app1"⟩
      = some { Database := { MySQL := some {
          Host := "", Port := 0, User := "admin", Password := "pw", DB := "a" } } } := by
    decide
  refine ⟨⟨_, rfl, by decide, by decide⟩, hafter, ?_⟩
  rintro ⟨m, hm, hh, _⟩
  rw [hafter] at hm
  simp only [Option.some.injEq, DatabaseEndpointSpec.mk.injEq, Database.mk.injEq] at hm
  subst hm
  exact hh rfl

/-- C7, witness: the endpoint `ns/app1` is stored at `old.example:3305`, the instance is
described at `db.example:3306`. -/
theorem Reconcile_keeps_populated_witness :
    Populated
      ((exampleWorld "AWSRdsInstance" [mysqlService "a"]
        (some (exampleEndpoint "old.example" 3305))
        (describeLive "db.example" 3306)).databaseEndpoints ⟨"ns", "app1"⟩) ∧
    Populated
      ((Reconcile exampleKeys exampleReq
        (exampleWorld "AWSRdsInstance" [mysqlService "a"]
          (some (exampleEndpoint "old.example" 3305))
          (describeLive "db.example" 3306))).2.databaseEndpoints ⟨"ns", "app1"⟩) :=
  have hp : Populated
      ((exampleWorld "AWSRdsInstance" [mysqlService "a"]
        (some (exampleEndpoint "old.example" 3305))
        (describeLive "db.example" 3306)).databaseEndpoints ⟨"ns", "app1"⟩) :=
    ⟨_, rfl, by decide, by decide⟩
  ⟨hp, Reconcile_keeps_populated exampleKeys exampleReq _
    (fun _ _ d hd => by
      have hd2 : d = { Endpoint := { Address := "db.example", Port := 3306 } } :=
        (Option.some.inj hd).symm
      subst hd2
      exact ⟨by decide, by decide⟩)
    _ hp⟩

/-! ## C8: a VirtualDatabase that is not cloud-backed -/

/-- C8. Let the lookup of the VirtualDatabase succeed with `rt`.  If `rt` names no class,
`Reconcile` returns success with `RequeueAfter` = 30 seconds after that one lookup.  If the
load of the named class fails with `e` (not-found included), it returns the error `e` with
an empty result.  If the class is loaded and its provisioner is not AWSRdsInstance, it
returns success with `RequeueAfter` = 30 seconds.  In the last two cases the calls are the
two lookups.  In every case the final world is the initial one with the lookups logged: no
provider call is issued and no DatabaseEndpoint is created or updated. -/
theorem Reconcile_not_cloud (keys : AnnotationKeys) (req : NamespacedName) (w : World)
    (rt : VirtualDatabase) (hv : (w.GetVirtualDatabase req).1 = (rt, none)) :
    (rt.Spec.DatabaseClassName = "" →
      Reconcile keys req w
        = (Outcome.returned { Requeue := false, RequeueAfter := 30 * Second } none,
           w.record (Call.getVirtualDatabase req))) ∧
    (rt.Spec.DatabaseClassName ≠ "" → ∀ e : GoError,
      ((w.record (Call.getVirtualDatabase req)).GetDatabaseClass
        ⟨rt.Namespace, rt.Spec.DatabaseClassName⟩).1.2 = some e →
      Reconcile keys req w
        = (Outcome.returned { Requeue := false, RequeueAfter := 0 } (some e),
           (w.record (Call.getVirtualDatabase req)).record
             (Call.getDatabaseClass ⟨rt.Namespace, rt.Spec.DatabaseClassName⟩))) ∧
    (rt.Spec.DatabaseClassName ≠ "" → ∀ cls : DatabaseClass,
      ((w.record (Call.getVirtualDatabase req)).GetDatabaseClass
        ⟨rt.Namespace, rt.Spec.DatabaseClassName⟩).1 = (cls, none) →
      cls.Spec.Provisioner ≠ DatabaseProvisionerAWSRdsInstance →
      Reconcile keys req w
        = (Outcome.returned { Requeue := false, RequeueAfter := 30 * Second } none,
           (w.record (Call.getVirtualDatabase req)).record
             (Call.getDatabaseClass ⟨rt.Namespace, rt.Spec.DatabaseClassName⟩))) := by
  have hw := GetVirtualDatabase_world w req
  rcases hg : w.GetVirtualDatabase req with ⟨⟨rt', err⟩, w1⟩
  rw [hg] at hv hw
  simp only [Prod.mk.injEq] at hv hw
  obtain ⟨h1, h2⟩ := hv
  subst h1 h2 hw
  refine ⟨?_, ?_, ?_⟩
  · intro hcn
    simp [Reconcile, getRuntimeVirtualDatabase, hg, reconcile, hcn, ReconcileTime]
  · intro hcn e he
    have hw2 := GetDatabaseClass_world (w.record (Call.getVirtualDatabase req))
      ⟨rt'.Namespace, rt'.Spec.DatabaseClassName⟩
    rcases hc : (w.record (Call.getVirtualDatabase req)).GetDatabaseClass
      ⟨rt'.Namespace, rt'.Spec.DatabaseClassName⟩ with ⟨⟨c, err⟩, w2⟩
    rw [hc] at he hw2
    simp only at he hw2
    subst he hw2
    simp [Reconcile, getRuntimeVirtualDatabase, hg, reconcile, hcn, hc]
  · intro hcn cls hcls hp
    have hw2 := GetDatabaseClass_world (w.record (Call.getVirtualDatabase req))
      ⟨rt'.Namespace, rt'.Spec.DatabaseClassName⟩
    rcases hc : (w.record (Call.getVirtualDatabase req)).GetDatabaseClass
      ⟨rt'.Namespace, rt'.Spec.DatabaseClassName⟩ with ⟨⟨c, err⟩, w2⟩
    rw [hc] at hcls hw2
    simp only [Prod.mk.injEq] at hcls hw2
    obtain ⟨h1, h2⟩ := hcls
    subst h1 h2 hw2
    simp [Reconcile, getRuntimeVirtualDatabase, hg, reconcile, hcn, hc, hp, ReconcileTime]

/-- C8, witness: a VirtualDatabase without a class name, one whose class is absent,
and one whose class has the provisioner `Helm`. -/
theorem Reconcile_not_cloud_witness :
    (Reconcile exampleKeys exampleReq inertWorld
      = (Outcome.returned { Requeue := false, RequeueAfter := 30 * Second } none,
         inertWorld.record (Call.getVirtualDatabase exampleReq))) ∧
    (Reconcile exampleKeys exampleReq orphanWorld
      = (Outcome.returned { Requeue := false, RequeueAfter := 0 }
           (some { msg := "not found", notFound := true }),
         (orphanWorld.record (Call.getVirtualDatabase exampleReq)).record
           (Call.getDatabaseClass ⟨"ns", "cls"⟩))) ∧
    (Reconcile exampleKeys exampleReq
        (exampleWorld "Helm" [mysqlService "a"] none describeNotFound)
      = (Outcome.returned { Requeue := false, RequeueAfter := 30 * Second } none,
         ((exampleWorld "Helm" [mysqlService "a"] none describeNotFound).record
           (Call.getVirtualDatabase exampleReq)).record
           (Call.getDatabaseClass ⟨"ns", "cls"⟩))) :=
  ⟨(Reconcile_not_cloud exampleKeys exampleReq inertWorld
      { Namespace := "ns", Name := "app1",
        Spec := { DatabaseClassName := "", Services := [mysqlService "a"] } } rfl).1 rfl,
   (Reconcile_not_cloud exampleKeys exampleReq orphanWorld
      { Namespace := "ns", Name := "app1",
        Spec := { DatabaseClassName := "cls", Services := [mysqlService "a"] } } rfl).2.1
      (by decide) { msg := "not found", notFound := true } rfl,
   (Reconcile_not_cloud exampleKeys exampleReq
      (exampleWorld "Helm" [mysqlService "a"] none describeNotFound)
      (exampleVdb [mysqlService "a"]) rfl).2.2
      (by decide) (exampleClass "Helm") rfl (by decide)⟩

/-! ## C9: a VirtualDatabase that cannot be loaded -/

/-- C9. When the lookup of the VirtualDatabase fails with `e`, `Reconcile` issues
that one call and nothing else: the final world is the initial one with the lookup logged
(no class load, no provider call, no endpoint access).  When `e` is NotFound it returns an
empty result (no requeue) and a nil error; otherwise it returns the error `e`. -/
theorem Reconcile_virtualDatabase_lookup_fails (keys : AnnotationKeys) (req : NamespacedName)
    (w : World) (e : GoError) (h : (w.GetVirtualDatabase req).1.2 = some e) :
    (Reconcile keys req w).2 = w.record (Call.getVirtualDatabase req) ∧
    (e.notFound = true →
      (Reconcile keys req w).1 = Outcome.returned { Requeue := false, RequeueAfter := 0 } none) ∧
    (e.notFound = false →
      (Reconcile keys req w).1
        = Outcome.returned { Requeue := false, RequeueAfter := 0 } (some e)) := by
  have hw := GetVirtualDatabase_world w req
  unfold Reconcile getRuntimeVirtualDatabase
  rcases hg : w.GetVirtualDatabase req with ⟨⟨rt, err⟩, w1⟩
  rw [hg] at h hw
  simp only at h hw
  subst h
  subst hw
  refine ⟨?_, ?_, ?_⟩
  · simp only
    split <;> rfl
  · intro hn
    simp [hn]
  · intro hn
    simp [hn]

/-- C9, witness: an empty store (the lookup reports NotFound) and a store whose
lookups time out. -/
theorem Reconcile_virtualDatabase_lookup_fails_witness :
    ((Reconcile exampleKeys exampleReq emptyWorld).2
      = emptyWorld.record (Call.getVirtualDatabase exampleReq) ∧
     (Reconcile exampleKeys exampleReq emptyWorld).1
      = Outcome.returned { Requeue := false, RequeueAfter := 0 } none) ∧
    ((Reconcile exampleKeys exampleReq brokenWorld).2
      = brokenWorld.record (Call.getVirtualDatabase exampleReq) ∧
     (Reconcile exampleKeys exampleReq brokenWorld).1
      = Outcome.returned { Requeue := false, RequeueAfter := 0 }
          (some { msg := "timeout", notFound := false })) :=
  have h1 := Reconcile_virtualDatabase_lookup_fails exampleKeys exampleReq emptyWorld
    { msg := "not found", notFound := true } rfl
  have h2 := Reconcile_virtualDatabase_lookup_fails exampleKeys exampleReq brokenWorld
    { msg := "timeout", notFound := false } rfl
  ⟨⟨h1.1, h1.2.1 rfl⟩, ⟨h2.1, h2.2.2 rfl⟩⟩

/-! ## C10: the result of a pass over a live instance -/

/-- C10 (as amended). For a cloud-backed VirtualDatabase whose `Describe` succeeds and
whose DatabaseEndpoint is stored and updated without error, `Reconcile` returns success
with an empty result: no requeue and a requeue-after of 0, not the 30 seconds of the
no-cloud-provisioner case. -/
theorem Reconcile_live_returns_empty_result (keys : AnnotationKeys) (req : NamespacedName)
    (w : World) (vdb : VirtualDatabase) (cls : DatabaseClass) (m : MySQL) (desc : DescInstance)
    (hcb : CloudBacked w req vdb cls)
    (hep : w.databaseEndpoints ⟨vdb.Namespace, vdb.Name⟩ = some { Database := { MySQL := some m } })
    (hget : ∀ t, w.storeFault t StoreOp.getDatabaseEndpoint = none)
    (hdesc : ∀ t, w.describeInstance t vdb.Name = (some desc, none))
    (hupd : ∀ t, w.storeFault t StoreOp.updateDatabaseEndpoint = none) :
    (Reconcile keys req w).1 = Outcome.returned { Requeue := false, RequeueAfter := 0 } none := by
  rw [Reconcile_cloudBacked keys req w vdb cls hcb]
  unfold reconcileAWSRds
  exact (reconcileServices_live vdb cls _ _ _ desc m.User m.Password m.DB vdb.Spec.Services
    ((w.record (Call.getVirtualDatabase req)).record
      (Call.getDatabaseClass ⟨vdb.Namespace, vdb.Spec.DatabaseClassName⟩))
    m.Host m.Port hdesc hget hupd hep).1

/-- C10, counterexample. The instance of `ns/app1` is described at `db.example:3306`,
the endpoint is stored and its one `Update` succeeds (the stored endpoint then has these
coordinates); `Reconcile` returns a nil error with `RequeueAfter` = 0, so no result with a
requeue-after of 30 seconds is returned. -/
theorem Reconcile_live_does_not_requeue_after_30s :
    (Reconcile exampleKeys exampleReq
      (exampleWorld "AWSRdsInstance" [mysqlService "a"] (some (exampleEndpoint "" 0))
        (describeLive "db.example" 3306))).1
      = Outcome.returned { Requeue := false, RequeueAfter := 0 } none ∧
    (Reconcile exampleKeys exampleReq
      (exampleWorld "AWSRdsInstance" [mysqlService "a"] (some (exampleEndpoint "" 0))
        (describeLive "db.example" 3306))).2.calls.countP Call.isUpdateDatabaseEndpoint = 1 ∧
    (Reconcile exampleKeys exampleReq
      (exampleWorld "AWSRdsInstance" [mysqlService "a"] (some (exampleEndpoint "" 0))
        (describeLive "db.example" 3306))).2.databaseEndpoints ⟨"ns", "app1"⟩
      = some { Database := { MySQL := some {
          Host := "db.example", Port := 3306, User := "admin", Password := "pw", DB := "a" } } } ∧
    ¬ (∃ res, res.RequeueAfter = 30 * Second ∧
        (Reconcile exampleKeys exampleReq
          (exampleWorld "AWSRdsInstance" [mysqlService "a"] (some (exampleEndpoint "" 0))
            (describeLive "db.example" 3306))).1 = Outcome.returned res none) := by
  have hout : (Reconcile exampleKeys exampleReq
      (exampleWorld "AWSRdsInstance" [mysqlService "a"] (some (exampleEndpoint "" 0))
        (describeLive "db.example" 3306))).1
      = Outcome.returned { Requeue := false, RequeueAfter := 0 } none := by decide
  refine ⟨hout, by decide, by decide, ?_⟩
  rintro ⟨res, hres, h⟩
  rw [hout] at h
  simp only [Outcome.returned.injEq, and_true] at h
  subst h
  revert hres
  decide

/-- C10, witness: two MySQL services, the endpoint stored, the instance described at
`db.example:3306`. -/
theorem Reconcile_live_returns_empty_result_witness :
    CloudBacked
      (exampleWorld "AWSRdsInstance" [mysqlService "a", mysqlService "b"]
        (some (exampleEndpoint "" 0)) (describeLive "db.example" 3306))
      exampleReq (exampleVdb [mysqlService "a", mysqlService "b"])
      (exampleClass "AWSRdsInstance") ∧
    (Reconcile exampleKeys exampleReq
      (exampleWorld "AWSRdsInstance" [mysqlService "a", mysqlService "b"]
        (some (exampleEndpoint "" 0)) (describeLive "db.example" 3306))).1
      = Outcome.returned { Requeue := false, RequeueAfter := 0 } none :=
  ⟨exampleWorld_cloudBacked _ _ _,
    Reconcile_live_returns_empty_result exampleKeys exampleReq
      (exampleWorld "AWSRdsInstance" [mysqlService "a", mysqlService "b"]
        (some (exampleEndpoint "" 0)) (describeLive "db.example" 3306))
      (exampleVdb [mysqlService "a", mysqlService "b"]) (exampleClass "AWSRdsInstance")
      { Host := "", Port := 0, User := "admin", Password := "pw", DB := "a" }
      { Endpoint := { Address := "db.example", Port := 3306 } }
      (exampleWorld_cloudBacked _ _ _) rfl (fun _ => rfl) (fun _ => rfl) (fun _ => rfl)⟩

end Pisanix
